import Mathlib

/-!
# converse: capability registry and request dispatcher

A shallow embedding of `pkg/server/server.go` and a verification of its
registration, listing and dispatch behaviour.

Conventions of the embedding.

* A Go function that may run user code is a state transformer on a world `σ`:
  it receives the world and returns its Go results together with the new
  world.  Only registered handle functions change the world.
* The Go pair `(any, error)` is a pair of options: `none` stands for `nil`.
* A Go `map[string]V` is a finite lookup function `String → Option V`.
* Types declared in `pkg/types` and the handler types of package `server`
  keep the fields the source reads; all remaining content is an abstract
  type parameter (`M` descriptor metadata, `A` request arguments, `R` handler
  payloads, `K` server capabilities, `C` contexts, `L` loggers).
-/

namespace Converse

/-! ## Go runtime values -/

/-- Go `error` value, as observed through `Error()` and `errors.Unwrap`. -/
inductive GoError where
  | plain (msg : String)
  | wrapping (msg : String) (inner : GoError)
  deriving DecidableEq, Repr

/-- Method `Error()` of an error value. -/
def GoError.Error : GoError → String
  | .plain msg => msg
  | .wrapping msg _ => msg

/-- Function `errors.Unwrap` on an error value. -/
def GoError.Unwrap : GoError → Option GoError
  | .plain _ => none
  | .wrapping _ inner => some inner

/-- Call `fmt.Errorf(format, s)` for a format holding the single verb `%s`;
the format is given by the text before and after the verb. -/
def Errorf_s (before after : String) (s : String) : GoError :=
  .plain (before ++ s ++ after)

/-- Call `fmt.Errorf(format, s, err)` for a format `before %s between %w after`:
the message interpolates `err.Error()` and the result unwraps to `err`. -/
def Errorf_s_w (before between after : String) (s : String) (err : GoError) : GoError :=
  .wrapping (before ++ s ++ between ++ err.Error ++ after) err

/-- Go `map[string]V`. -/
def GoMap (V : Type) : Type := String → Option V

/-- Go `make(map[string]V, n)`: the empty map (the capacity hint has no
observable effect). -/
def GoMap.make {V : Type} : GoMap V := fun _ => none

/-- Go `m[k] = v`. -/
def GoMap.set {V : Type} (m : GoMap V) (k : String) (v : V) : GoMap V :=
  fun q => if q = k then some v else m q

/-- Go `v, ok := m[k]`: `some v` when `ok`, `none` otherwise. -/
def GoMap.get {V : Type} (m : GoMap V) (k : String) : Option V := m k

/-! ## Types of `pkg/types` -/

/-- Modelled from the spec: `types.Prompt` is declared outside the source file.
A capability descriptor is `{name: string, metadata: arbitrary-shape}`; the
source reads `Name` only. -/
structure Prompt (M : Type) where
  Name : String
  Metadata : M

/-- Modelled from the spec: `types.Resource` is declared outside the source
file.  The source reads `Name` only; `Uri` is the descriptor's own location
field, kept apart from the rest of the metadata. -/
structure Resource (M : Type) where
  Name : String
  Uri : String
  Metadata : M

/-- Modelled from the spec: `types.Tool` is declared outside the source file.
The source reads `Name` only. -/
structure Tool (M : Type) where
  Name : String
  Metadata : M

/-- Modelled from the spec: `types.GetPromptRequestParams`, the parameter
shape `{name: string, ...kind-specific fields}`; the source reads `Name`. -/
structure GetPromptRequestParams (A : Type) where
  Name : String
  Arguments : A

/-- Modelled from the spec: `types.ReadResourceRequestParams`; the source
reads `Uri`. -/
structure ReadResourceRequestParams where
  Uri : String
  deriving DecidableEq, Repr

/-- Modelled from the spec: `types.CallToolRequestParams`, the parameter shape
`{name: string, ...kind-specific fields}`; the source reads `Name`. -/
structure CallToolRequestParams (A : Type) where
  Name : String
  Arguments : A

/-- Struct `types.Implementation`, with the two fields `New` fills in. -/
structure Implementation where
  Name : String
  Version : String
  deriving DecidableEq, Repr

/-- Struct `types.InitializeResult`, with the three fields the source fills. -/
structure InitializeResult (K : Type) where
  ProtocolVersion : String
  ServerInfo : Implementation
  Capabilities : K

/-- Struct `types.ListPromptsResult`. -/
structure ListPromptsResult (M : Type) where
  Prompts : List (Prompt M)

/-- Struct `types.ListResourcesResult`. -/
structure ListResourcesResult (M : Type) where
  Resources : List (Resource M)

/-- Struct `types.ListToolsResult`. -/
structure ListToolsResult (M : Type) where
  Tools : List (Tool M)

/-- Values that travel in the `any` position of a `jrpc2.Handler` result: the
four result structs the source builds itself, and whatever payload `R` a
registered handle function returns. -/
inductive Any (M R K : Type) where
  | initializeResult (r : InitializeResult K)
  | listPromptsResult (r : ListPromptsResult M)
  | listResourcesResult (r : ListResourcesResult M)
  | listToolsResult (r : ListToolsResult M)
  | payload (r : R)

/-- Go result pair `(any, error)`. -/
abbrev Outcome (M R K : Type) : Type := Option (Any M R K) × Option GoError

/-! ## The request object of the transport -/

/-- The part of `*jrpc2.Request` the dispatcher consumes: `Method()` and
`UnmarshalParams(&params)`.  The source always passes a zero-valued target, so
each of the three target types has one outcome: the error, or the target as
filled in. -/
structure Request (A : Type) where
  Method : String
  UnmarshalGetPromptParams : Except GoError (GetPromptRequestParams A)
  UnmarshalReadResourceParams : Except GoError ReadResourceRequestParams
  UnmarshalCallToolParams : Except GoError (CallToolRequestParams A)

/-- Type `jrpc2.Handler`: `func(context.Context, *jrpc2.Request) (any, error)`,
as a transformer of the world `σ`. -/
abbrev Handler (σ C A M R K : Type) : Type :=
  C → Request A → σ → Outcome M R K × σ

/-! ## Handler bindings of package `server` -/

/-- Type `PromptHandleFunc`: called as `h.Handle(ctx, logger, params)`. -/
abbrev PromptHandleFunc (σ C L A M R K : Type) : Type :=
  C → L → GetPromptRequestParams A → σ → Outcome M R K × σ

/-- Type `ResourceHandleFunc`: called as `h.Handle(ctx, logger, params)`. -/
abbrev ResourceHandleFunc (σ C L M R K : Type) : Type :=
  C → L → ReadResourceRequestParams → σ → Outcome M R K × σ

/-- Type `ToolHandleFunc`: called as `h.Handle(ctx, logger, params)`. -/
abbrev ToolHandleFunc (σ C L A M R K : Type) : Type :=
  C → L → CallToolRequestParams A → σ → Outcome M R K × σ

/-- Struct `PromptHandler`: a prompt descriptor (embedded, so `h.Name` is
`h.Prompt.Name`) and its handle function. -/
structure PromptHandler (σ C L A M R K : Type) where
  Prompt : Prompt M
  Handle : PromptHandleFunc σ C L A M R K

/-- Struct `ResourceHandler`: a resource descriptor (embedded, so `h.Name` is
`h.Resource.Name`) and its handle function. -/
structure ResourceHandler (σ C L M R K : Type) where
  Resource : Resource M
  Handle : ResourceHandleFunc σ C L M R K

/-- Struct `ToolHandler`: a tool descriptor (embedded, so `h.Name` is
`h.Tool.Name`) and its handle function. -/
structure ToolHandler (σ C L A M R K : Type) where
  Tool : Tool M
  Handle : ToolHandleFunc σ C L A M R K

/-! ## The builder -/

/-- Struct `Builder`. -/
structure Builder (σ C L A M R K : Type) where
  capabilities : K
  serverInfo : Implementation
  prompts : List (PromptHandler σ C L A M R K)
  resources : List (ResourceHandler σ C L M R K)
  tools : List (ToolHandler σ C L A M R K)

section Source

variable {σ C L A M R K : Type}

/-- Function `New`.  `types.DefaultCapabilities` is declared outside the source
file and is taken as a parameter; a `types.ServerCapability` mutates the
capabilities through a pointer, here a function `K → K`. -/
def New (DefaultCapabilities : K) (name version : String)
    (capabilities : List (K → K)) : Builder σ C L A M R K :=
  let sc := capabilities.foldl (fun sc apply => apply sc) DefaultCapabilities
  { capabilities := sc
    serverInfo := { Name := name, Version := version }
    prompts := []
    resources := []
    tools := [] }

/-- Method `Builder.Prompt`. -/
def Builder.Prompt (b : Builder σ C L A M R K) (prompt : Prompt M)
    (handle : PromptHandleFunc σ C L A M R K) : Builder σ C L A M R K :=
  { b with prompts := b.prompts ++ [{ Prompt := prompt, Handle := handle }] }

/-- Method `Builder.Resource`. -/
def Builder.Resource (b : Builder σ C L A M R K) (resource : Resource M)
    (handle : ResourceHandleFunc σ C L M R K) : Builder σ C L A M R K :=
  { b with resources := b.resources ++ [{ Resource := resource, Handle := handle }] }

/-- Method `Builder.Tools`. -/
def Builder.Tools (b : Builder σ C L A M R K)
    (tools : List (ToolHandler σ C L A M R K)) : Builder σ C L A M R K :=
  { b with tools := tools }

/-- Method `Builder.Tool`. -/
def Builder.Tool (b : Builder σ C L A M R K) (tool : Tool M)
    (handle : ToolHandleFunc σ C L A M R K) : Builder σ C L A M R K :=
  { b with tools := b.tools ++ [{ Tool := tool, Handle := handle }] }

/-- Variable `protocolVersion`. -/
def protocolVersion : String := "2025-03-26"

/-- Function `initialize` of the source (the bare name is reserved in Lean). -/
def initializeHandler (capabilities : K) (serverInfo : Implementation) :
    Handler σ C A M R K :=
  fun _ _ w =>
    ((some (Any.initializeResult
        { ProtocolVersion := protocolVersion
          ServerInfo := serverInfo
          Capabilities := capabilities }), none), w)

/-- Function `listPrompts`. -/
def listPrompts (handlers : List (PromptHandler σ C L A M R K)) : Handler σ C A M R K :=
  let prompts := handlers.foldl (fun prompts h => prompts ++ [h.Prompt]) []
  fun _ _ w => ((some (Any.listPromptsResult { Prompts := prompts }), none), w)

/-- Function `getPrompt`. -/
def getPrompt (logger : L) (handlers : List (PromptHandler σ C L A M R K)) :
    Handler σ C A M R K :=
  let prompts := handlers.foldl (fun prompts h => prompts.set h.Prompt.Name h) GoMap.make
  fun ctx req w =>
    match req.UnmarshalGetPromptParams with
    | .error err =>
      ((none, some (Errorf_s_w "error while unmarshalling '" "' request parameters: " ""
          req.Method err)), w)
    | .ok params =>
      match prompts.get params.Name with
      | some h => h.Handle ctx logger params w
      | none => ((none, some (Errorf_s "prompt '" "' does not exist" params.Name)), w)

/-- Function `listResources`. -/
def listResources (handlers : List (ResourceHandler σ C L M R K)) : Handler σ C A M R K :=
  let resources := handlers.foldl (fun resources h => resources ++ [h.Resource]) []
  fun _ _ w => ((some (Any.listResourcesResult { Resources := resources }), none), w)

/-- Function `readResource`. -/
def readResource (logger : L) (handlers : List (ResourceHandler σ C L M R K)) :
    Handler σ C A M R K :=
  let resources :=
    handlers.foldl (fun resources h => resources.set h.Resource.Name h) GoMap.make
  fun ctx req w =>
    match req.UnmarshalReadResourceParams with
    | .error err =>
      ((none, some (Errorf_s_w "error while unmarshalling '" "' request parameters: " ""
          req.Method err)), w)
    | .ok params =>
      match resources.get params.Uri with
      | some h => h.Handle ctx logger params w
      | none => ((none, some (Errorf_s "resource '" "' does not exist" params.Uri)), w)

/-- Function `listTools`. -/
def listTools (handlers : List (ToolHandler σ C L A M R K)) : Handler σ C A M R K :=
  let tools := handlers.foldl (fun tools h => tools ++ [h.Tool]) []
  fun _ _ w => ((some (Any.listToolsResult { Tools := tools }), none), w)

/-- Function `callTool`. -/
def callTool (logger : L) (handlers : List (ToolHandler σ C L A M R K)) :
    Handler σ C A M R K :=
  let tools := handlers.foldl (fun tools h => tools.set h.Tool.Name h) GoMap.make
  fun ctx req w =>
    match req.UnmarshalCallToolParams with
    | .error err =>
      ((none, some (Errorf_s_w "error while unmarshalling '" "' request parameters: " ""
          req.Method err)), w)
    | .ok params =>
      match tools.get params.Name with
      | some h => h.Handle ctx logger params w
      | none => ((none, some (Errorf_s "tool '" "' does not exist" params.Name)), w)

/-- Method `Builder.Start`, up to the construction of the method table `mux`
(a `handler.Map`, that is a `map[string]jrpc2.Handler`).  The server that
`jrpc2.NewServer(mux, opts).Start(c)` runs on the channel belongs to the
transport library; it resolves a method name by looking it up in `mux`. -/
def Builder.Start (b : Builder σ C L A M R K) (logger : L) : GoMap (Handler σ C A M R K) :=
  ((((((GoMap.make.set "initialize" (initializeHandler b.capabilities b.serverInfo)).set
    "prompts/list" (listPrompts b.prompts)).set
    "prompts/get" (getPrompt logger b.prompts)).set
    "resources/list" (listResources b.resources)).set
    "resources/read" (readResource logger b.resources)).set
    "tools/list" (listTools b.tools)).set
    "tools/call" (callTool logger b.tools)

end Source

/-! ## Registration programs and observers used by the specification -/

section Observers

variable {σ C L A M R K : Type}

/-- One registration call made on a builder. -/
inductive Registration (σ C L A M R K : Type) where
  | prompt (p : Prompt M) (handle : PromptHandleFunc σ C L A M R K)
  | resource (r : Resource M) (handle : ResourceHandleFunc σ C L M R K)
  | tool (t : Tool M) (handle : ToolHandleFunc σ C L A M R K)
  | tools (ts : List (ToolHandler σ C L A M R K))

/-- Whether the registration is the bulk call `Builder.Tools`. -/
def Registration.isBulk : Registration σ C L A M R K → Bool
  | .tools _ => true
  | _ => false

/-- The builder method a registration stands for, applied to a builder. -/
def Registration.run (b : Builder σ C L A M R K) :
    Registration σ C L A M R K → Builder σ C L A M R K
  | .prompt p handle => b.Prompt p handle
  | .resource r handle => b.Resource r handle
  | .tool t handle => b.Tool t handle
  | .tools ts => b.Tools ts

/-- A chain of registration calls `b.X(..).Y(..)...`, run left to right. -/
def register (b : Builder σ C L A M R K) (regs : List (Registration σ C L A M R K)) :
    Builder σ C L A M R K :=
  regs.foldl Registration.run b

/-- The prompt descriptors passed to `Builder.Prompt` in a chain, in call order. -/
def registeredPrompts : List (Registration σ C L A M R K) → List (Prompt M)
  | [] => []
  | .prompt p _ :: regs => p :: registeredPrompts regs
  | _ :: regs => registeredPrompts regs

/-- The resource descriptors passed to `Builder.Resource` in a chain, in call
order. -/
def registeredResources : List (Registration σ C L A M R K) → List (Resource M)
  | [] => []
  | .resource r _ :: regs => r :: registeredResources regs
  | _ :: regs => registeredResources regs

/-- The tool descriptors passed to `Builder.Tool` in a chain, in call order. -/
def registeredTools : List (Registration σ C L A M R K) → List (Tool M)
  | [] => []
  | .tool t _ :: regs => t :: registeredTools regs
  | _ :: regs => registeredTools regs

/-- Capability options applied one after the other, first option first. -/
def applyOptions : List (K → K) → K → K
  | [], k => k
  | opt :: opts, k => applyOptions opts (opt k)

/-- The binding registered last under name `n` among `hs`, if any; `key` reads
a binding's name. -/
def lookupLast {H : Type} (key : H → String) (n : String) : List H → Option H
  | [] => none
  | h :: hs =>
    match lookupLast key n hs with
    | some x => some x
    | none => if n = key h then some h else none

/-- A handle function that behaves as `f` on the world and also appends the
number `i` to a call log kept beside the world. -/
def counting {P : Type} (i : Nat) (f : C → L → P → σ → Outcome M R K × σ) :
    C → L → P → σ × List Nat → Outcome M R K × (σ × List Nat) :=
  fun ctx logger params s =>
    let r := f ctx logger params s.1
    (r.1, (r.2, s.2 ++ [i]))

/-- Prompt bindings whose handle functions log their position in the list,
positions counted from `i`. -/
def countPromptsFrom (i : Nat) :
    List (PromptHandler σ C L A M R K) → List (PromptHandler (σ × List Nat) C L A M R K)
  | [] => []
  | h :: hs =>
    { Prompt := h.Prompt, Handle := counting i h.Handle } :: countPromptsFrom (i + 1) hs

/-- Resource bindings whose handle functions log their position in the list,
positions counted from `i`. -/
def countResourcesFrom (i : Nat) :
    List (ResourceHandler σ C L M R K) → List (ResourceHandler (σ × List Nat) C L M R K)
  | [] => []
  | h :: hs =>
    { Resource := h.Resource, Handle := counting i h.Handle } :: countResourcesFrom (i + 1) hs

/-- Tool bindings whose handle functions log their position in the list,
positions counted from `i`. -/
def countToolsFrom (i : Nat) :
    List (ToolHandler σ C L A M R K) → List (ToolHandler (σ × List Nat) C L A M R K)
  | [] => []
  | h :: hs =>
    { Tool := h.Tool, Handle := counting i h.Handle } :: countToolsFrom (i + 1) hs

/-- The positions of the prompt bindings whose handle function runs while
`getPrompt` serves `req`, one entry per invocation, in invocation order. -/
def promptCalls (logger : L) (hs : List (PromptHandler σ C L A M R K)) (ctx : C)
    (req : Request A) (w : σ) : List Nat :=
  (getPrompt logger (countPromptsFrom 0 hs) ctx req (w, [])).2.2

/-- The positions of the resource bindings whose handle function runs while
`readResource` serves `req`, one entry per invocation, in invocation order. -/
def resourceCalls (logger : L) (hs : List (ResourceHandler σ C L M R K)) (ctx : C)
    (req : Request A) (w : σ) : List Nat :=
  (readResource logger (countResourcesFrom 0 hs) ctx req (w, [])).2.2

/-- The positions of the tool bindings whose handle function runs while
`callTool` serves `req`, one entry per invocation, in invocation order. -/
def toolCalls (logger : L) (hs : List (ToolHandler σ C L A M R K)) (ctx : C)
    (req : Request A) (w : σ) : List Nat :=
  (callTool logger (countToolsFrom 0 hs) ctx req (w, [])).2.2

/-- Modelled from the spec: the raw parameter payload of a get/read/call
request.  The decoder lives outside the source file (`UnmarshalParams` of the
transport together with the parameter types of `pkg/types`); the spec gives the
parameter shape as `{name: string, ...kind-specific fields}` with `name`
required.  `name` is the identifying field as found in the payload (`none`
when the payload lacks it; resources/read carries it as `Uri`). -/
structure Payload (A : Type) where
  name : Option String
  arguments : A

/-- Modelled from the spec: the request object the transport hands over for a
method name and a raw payload.  Decoding fails with the decoder's error
`missing` exactly when the required identifying field is absent; otherwise the
target is filled with the payload's fields. -/
def Payload.request (method : String) (missing : GoError) (p : Payload A) : Request A :=
  match p.name with
  | none =>
    { Method := method
      UnmarshalGetPromptParams := .error missing
      UnmarshalReadResourceParams := .error missing
      UnmarshalCallToolParams := .error missing }
  | some n =>
    { Method := method
      UnmarshalGetPromptParams := .ok { Name := n, Arguments := p.arguments }
      UnmarshalReadResourceParams := .ok { Uri := n }
      UnmarshalCallToolParams := .ok { Name := n, Arguments := p.arguments } }

end Observers

/-! ## Sample registrations -/

section Samples

/-- A sample prompt binding: counts its invocations in the world and returns
the requested name. -/
def samplePrompt (n : String) : PromptHandler Nat Unit Unit Nat Unit String Nat :=
  { Prompt := { Name := n, Metadata := () }
    Handle := fun _ _ params w => ((some (Any.payload ("prompt " ++ params.Name)), none), w + 1) }

/-- A sample resource binding: counts its invocations in the world and returns
the requested location. -/
def sampleResource (n uri : String) : ResourceHandler Nat Unit Unit Unit String Nat :=
  { Resource := { Name := n, Uri := uri, Metadata := () }
    Handle := fun _ _ params w => ((some (Any.payload ("resource " ++ params.Uri)), none), w + 1) }

/-- A sample tool binding: counts its invocations in the world and returns the
requested name. -/
def sampleTool (n : String) : ToolHandler Nat Unit Unit Nat Unit String Nat :=
  { Tool := { Name := n, Metadata := () }
    Handle := fun _ _ params w => ((some (Any.payload ("tool " ++ params.Name)), none), w + 1) }

/-- A sample tool binding whose handle function fails, returning both a
payload and an error. -/
def failingTool (n : String) : ToolHandler Nat Unit Unit Nat Unit String Nat :=
  { Tool := { Name := n, Metadata := () }
    Handle := fun _ _ _ w =>
      ((some (Any.payload "partial"), some (GoError.plain "tool failed")), w + 1) }

/-- A sample request for `method` whose parameters decode, for each of the
three parameter types, with identifying field `n`. -/
def sampleRequest (method n : String) : Request Nat :=
  { Method := method
    UnmarshalGetPromptParams := .ok { Name := n, Arguments := 0 }
    UnmarshalReadResourceParams := .ok { Uri := n }
    UnmarshalCallToolParams := .ok { Name := n, Arguments := 0 } }

/-- A sample request for `method` whose parameters fail to decode with `err`. -/
def brokenRequest (method : String) (err : GoError) : Request Nat :=
  { Method := method
    UnmarshalGetPromptParams := .error err
    UnmarshalReadResourceParams := .error err
    UnmarshalCallToolParams := .error err }

/-- A sample chain of registrations mixing the three kinds. -/
def sampleChain : List (Registration Nat Unit Unit Nat Unit String Nat) :=
  [ .prompt (samplePrompt "greet").Prompt (samplePrompt "greet").Handle,
    .tool (sampleTool "echo").Tool (sampleTool "echo").Handle,
    .resource (sampleResource "readme" "file:///readme").Resource
      (sampleResource "readme" "file:///readme").Handle,
    .prompt (samplePrompt "bye").Prompt (samplePrompt "bye").Handle,
    .tool (sampleTool "add").Tool (sampleTool "add").Handle ]

end Samples

/-! ## Auxiliary lemmas -/

section Lemmas

variable {σ C L A M R K : Type}

theorem foldl_snoc_eq_map {H D : Type} (f : H → D) (hs : List H) (init : List D) :
    hs.foldl (fun acc h => acc ++ [f h]) init = init ++ hs.map f := by
  induction hs generalizing init with
  | nil => simp
  | cons h t ih => simp [ih]

theorem foldl_set_get {H : Type} (key : H → String) (n : String) (hs : List H)
    (m : GoMap H) :
    (hs.foldl (fun m h => m.set (key h) h) m).get n =
      match lookupLast key n hs with
      | some x => some x
      | none => m.get n := by
  induction hs generalizing m with
  | nil => simp [lookupLast]
  | cons h t ih =>
    simp only [List.foldl_cons, ih, lookupLast]
    cases hl : lookupLast key n t with
    | some x => rfl
    | none =>
      by_cases hk : n = key h <;> simp [GoMap.get, GoMap.set, hk]

theorem lookupLast_none {H : Type} (key : H → String) (n : String) (hs : List H)
    (hne : ∀ h ∈ hs, key h ≠ n) : lookupLast key n hs = none := by
  induction hs with
  | nil => rfl
  | cons h t ih =>
    have ht : lookupLast key n t = none := ih (fun x hx => hne x (List.mem_cons_of_mem _ hx))
    have hh : ¬ n = key h := fun e => hne h (List.mem_cons_self _ _) e.symm
    simp [lookupLast, ht, hh]

theorem lookupLast_some_mem {H : Type} (key : H → String) (n : String) (hs : List H)
    (b : H) (hb : lookupLast key n hs = some b) : b ∈ hs ∧ key b = n := by
  induction hs with
  | nil => simp [lookupLast] at hb
  | cons h t ih =>
    simp only [lookupLast] at hb
    cases hl : lookupLast key n t with
    | some x =>
      rw [hl] at hb
      simp only [Option.some.injEq] at hb
      subst hb
      exact ⟨List.mem_cons_of_mem _ (ih hl).1, (ih hl).2⟩
    | none =>
      rw [hl] at hb
      by_cases hk : n = key h
      · simp only [hk, if_true, Option.some.injEq] at hb
        subst hb
        exact ⟨List.mem_cons_self _ _, hk.symm⟩
      · simp [hk] at hb

theorem lookupLast_of_nodup {H : Type} (key : H → String) (n : String) (hs : List H)
    (b : H) (hnd : (hs.map key).Nodup) (hb : b ∈ hs) (hk : key b = n) :
    lookupLast key n hs = some b := by
  induction hs with
  | nil => simp at hb
  | cons h t ih =>
    rw [List.map_cons, List.nodup_cons] at hnd
    rcases List.mem_cons.1 hb with rfl | hbt
    · have ht : lookupLast key n t = none := by
        apply lookupLast_none
        intro x hx hxn
        exact hnd.1 (List.mem_map.2 ⟨x, hx, hxn.trans hk.symm⟩)
      simp [lookupLast, ht, hk]
    · simp [lookupLast, ih hnd.2 hbt]

theorem lookupLast_none_of_not_mem {H : Type} (key : H → String) (n : String)
    (hs : List H) (hn : n ∉ hs.map key) : lookupLast key n hs = none :=
  lookupLast_none key n hs (fun h hh e => hn (List.mem_map.2 ⟨h, hh, e⟩))

theorem not_mem_names_of_ne {H : Type} (key : H → String) (n : String) (hs : List H)
    (hne : ∀ h ∈ hs, key h ≠ n) : n ∉ hs.map key := by
  intro hmem
  rcases List.mem_map.1 hmem with ⟨h, hh, e⟩
  exact hne h hh e

theorem countPromptsFrom_names (k : Nat) (hs : List (PromptHandler σ C L A M R K)) :
    (countPromptsFrom k hs).map (fun h => h.Prompt.Name) = hs.map (fun h => h.Prompt.Name) := by
  induction hs generalizing k with
  | nil => rfl
  | cons h t ih => simp [countPromptsFrom, ih]

theorem countResourcesFrom_names (k : Nat) (hs : List (ResourceHandler σ C L M R K)) :
    (countResourcesFrom k hs).map (fun h => h.Resource.Name) =
      hs.map (fun h => h.Resource.Name) := by
  induction hs generalizing k with
  | nil => rfl
  | cons h t ih => simp [countResourcesFrom, ih]

theorem countToolsFrom_names (k : Nat) (hs : List (ToolHandler σ C L A M R K)) :
    (countToolsFrom k hs).map (fun h => h.Tool.Name) = hs.map (fun h => h.Tool.Name) := by
  induction hs generalizing k with
  | nil => rfl
  | cons h t ih => simp [countToolsFrom, ih]

theorem countPromptsFrom_mem (k i : Nat) (hs : List (PromptHandler σ C L A M R K))
    (b : PromptHandler σ C L A M R K) (hb : hs[i]? = some b) :
    ({ Prompt := b.Prompt, Handle := counting (k + i) b.Handle } :
      PromptHandler (σ × List Nat) C L A M R K) ∈ countPromptsFrom k hs := by
  induction hs generalizing k i with
  | nil => simp at hb
  | cons h t ih =>
    cases i with
    | zero =>
      simp only [List.getElem?_cons_zero, Option.some.injEq] at hb
      subst hb
      simp [countPromptsFrom]
    | succ j =>
      simp only [List.getElem?_cons_succ] at hb
      have hmem := ih (k + 1) j hb
      have hk : k + 1 + j = k + (j + 1) := by omega
      rw [hk] at hmem
      exact List.mem_cons_of_mem _ hmem

theorem countResourcesFrom_mem (k i : Nat) (hs : List (ResourceHandler σ C L M R K))
    (b : ResourceHandler σ C L M R K) (hb : hs[i]? = some b) :
    ({ Resource := b.Resource, Handle := counting (k + i) b.Handle } :
      ResourceHandler (σ × List Nat) C L M R K) ∈ countResourcesFrom k hs := by
  induction hs generalizing k i with
  | nil => simp at hb
  | cons h t ih =>
    cases i with
    | zero =>
      simp only [List.getElem?_cons_zero, Option.some.injEq] at hb
      subst hb
      simp [countResourcesFrom]
    | succ j =>
      simp only [List.getElem?_cons_succ] at hb
      have hmem := ih (k + 1) j hb
      have hk : k + 1 + j = k + (j + 1) := by omega
      rw [hk] at hmem
      exact List.mem_cons_of_mem _ hmem

theorem countToolsFrom_mem (k i : Nat) (hs : List (ToolHandler σ C L A M R K))
    (b : ToolHandler σ C L A M R K) (hb : hs[i]? = some b) :
    ({ Tool := b.Tool, Handle := counting (k + i) b.Handle } :
      ToolHandler (σ × List Nat) C L A M R K) ∈ countToolsFrom k hs := by
  induction hs generalizing k i with
  | nil => simp at hb
  | cons h t ih =>
    cases i with
    | zero =>
      simp only [List.getElem?_cons_zero, Option.some.injEq] at hb
      subst hb
      simp [countToolsFrom]
    | succ j =>
      simp only [List.getElem?_cons_succ] at hb
      have hmem := ih (k + 1) j hb
      have hk : k + 1 + j = k + (j + 1) := by omega
      rw [hk] at hmem
      exact List.mem_cons_of_mem _ hmem

theorem lookupLast_of_mem {H : Type} (key : H → String) (n : String) (hs : List H)
    (hex : ∃ h ∈ hs, key h = n) : ∃ b, lookupLast key n hs = some b := by
  induction hs with
  | nil => simp at hex
  | cons h t ih =>
    cases hl : lookupLast key n t with
    | some x => exact ⟨x, by simp [lookupLast, hl]⟩
    | none =>
      rcases hex with ⟨x, hx, hxn⟩
      rcases List.mem_cons.1 hx with rfl | hxt
      · exact ⟨x, by simp [lookupLast, hl, hxn]⟩
      · rcases ih ⟨x, hxt, hxn⟩ with ⟨b, hb⟩
        rw [hl] at hb
        cases hb

theorem applyOptions_eq_foldl (opts : List (K → K)) (k : K) :
    opts.foldl (fun sc apply => apply sc) k = applyOptions opts k := by
  induction opts generalizing k with
  | nil => rfl
  | cons opt rest ih => simp [applyOptions, ih]

theorem register_capabilities (regs : List (Registration σ C L A M R K))
    (b : Builder σ C L A M R K) : (register b regs).capabilities = b.capabilities := by
  induction regs generalizing b with
  | nil => rfl
  | cons r rs ih =>
    have hstep : register b (r :: rs) = register (Registration.run b r) rs := rfl
    rw [hstep, ih]
    cases r <;> rfl

theorem register_serverInfo (regs : List (Registration σ C L A M R K))
    (b : Builder σ C L A M R K) : (register b regs).serverInfo = b.serverInfo := by
  induction regs generalizing b with
  | nil => rfl
  | cons r rs ih =>
    have hstep : register b (r :: rs) = register (Registration.run b r) rs := rfl
    rw [hstep, ih]
    cases r <;> rfl

theorem Start_initialize (b : Builder σ C L A M R K) (logger : L) :
    (b.Start logger).get "initialize" = some (initializeHandler b.capabilities b.serverInfo) := by
  simp [Builder.Start, GoMap.get, GoMap.set]

theorem Start_prompts_list (b : Builder σ C L A M R K) (logger : L) :
    (b.Start logger).get "prompts/list" = some (listPrompts b.prompts) := by
  simp [Builder.Start, GoMap.get, GoMap.set]

theorem Start_prompts_get (b : Builder σ C L A M R K) (logger : L) :
    (b.Start logger).get "prompts/get" = some (getPrompt logger b.prompts) := by
  simp [Builder.Start, GoMap.get, GoMap.set]

theorem Start_resources_list (b : Builder σ C L A M R K) (logger : L) :
    (b.Start logger).get "resources/list" = some (listResources b.resources) := by
  simp [Builder.Start, GoMap.get, GoMap.set]

theorem Start_resources_read (b : Builder σ C L A M R K) (logger : L) :
    (b.Start logger).get "resources/read" = some (readResource logger b.resources) := by
  simp [Builder.Start, GoMap.get, GoMap.set]

theorem Start_tools_list (b : Builder σ C L A M R K) (logger : L) :
    (b.Start logger).get "tools/list" = some (listTools b.tools) := by
  simp [Builder.Start, GoMap.get, GoMap.set]

theorem Start_tools_call (b : Builder σ C L A M R K) (logger : L) :
    (b.Start logger).get "tools/call" = some (callTool logger b.tools) := by
  simp [Builder.Start, GoMap.get, GoMap.set]

theorem lookupLast_last {H : Type} (key : H → String) (n : String) (hs : List H) (i : Nat)
    (b : H) (hb : hs[i]? = some b) (hk : key b = n)
    (hlast : n ∉ (hs.map key).drop (i + 1)) : lookupLast key n hs = some b := by
  induction hs generalizing i with
  | nil => simp at hb
  | cons h t ih =>
    cases i with
    | zero =>
      simp only [List.getElem?_cons_zero, Option.some.injEq] at hb
      subst hb
      have ht : lookupLast key n t = none :=
        lookupLast_none_of_not_mem key n t (by simpa using hlast)
      simp [lookupLast, ht, hk]
    | succ j =>
      simp only [List.getElem?_cons_succ] at hb
      have ht : lookupLast key n t = some b := ih j hb (by simpa using hlast)
      simp [lookupLast, ht]

theorem exists_last_position {H : Type} (key : H → String) (n : String) (hs : List H)
    (hmem : n ∈ hs.map key) :
    ∃ i b, hs[i]? = some b ∧ key b = n ∧ n ∉ (hs.map key).drop (i + 1) := by
  induction hs with
  | nil => simp at hmem
  | cons h t ih =>
    by_cases ht : n ∈ t.map key
    · rcases ih ht with ⟨i, b, hb, hk, hlast⟩
      exact ⟨i + 1, b, by simpa using hb, hk, by simpa using hlast⟩
    · have hh : key h = n := by
        rcases List.mem_map.1 hmem with ⟨x, hx, hxn⟩
        rcases List.mem_cons.1 hx with rfl | hxt
        · exact hxn
        · exact absurd (List.mem_map.2 ⟨x, hxt, hxn⟩) ht
      exact ⟨0, h, by simp, hh, by simpa using ht⟩

theorem countPromptsFrom_getElem? (k i : Nat) (hs : List (PromptHandler σ C L A M R K))
    (b : PromptHandler σ C L A M R K) (hb : hs[i]? = some b) :
    (countPromptsFrom k hs)[i]? =
      some ({ Prompt := b.Prompt, Handle := counting (k + i) b.Handle } :
        PromptHandler (σ × List Nat) C L A M R K) := by
  induction hs generalizing k i with
  | nil => simp at hb
  | cons h t ih =>
    cases i with
    | zero =>
      simp only [List.getElem?_cons_zero, Option.some.injEq] at hb
      subst hb
      simp [countPromptsFrom]
    | succ j =>
      simp only [List.getElem?_cons_succ] at hb
      have hk : k + 1 + j = k + (j + 1) := by omega
      simp only [countPromptsFrom, List.getElem?_cons_succ, ih (k + 1) j hb, hk]

theorem countResourcesFrom_getElem? (k i : Nat) (hs : List (ResourceHandler σ C L M R K))
    (b : ResourceHandler σ C L M R K) (hb : hs[i]? = some b) :
    (countResourcesFrom k hs)[i]? =
      some ({ Resource := b.Resource, Handle := counting (k + i) b.Handle } :
        ResourceHandler (σ × List Nat) C L M R K) := by
  induction hs generalizing k i with
  | nil => simp at hb
  | cons h t ih =>
    cases i with
    | zero =>
      simp only [List.getElem?_cons_zero, Option.some.injEq] at hb
      subst hb
      simp [countResourcesFrom]
    | succ j =>
      simp only [List.getElem?_cons_succ] at hb
      have hk : k + 1 + j = k + (j + 1) := by omega
      simp only [countResourcesFrom, List.getElem?_cons_succ, ih (k + 1) j hb, hk]

theorem countToolsFrom_getElem? (k i : Nat) (hs : List (ToolHandler σ C L A M R K))
    (b : ToolHandler σ C L A M R K) (hb : hs[i]? = some b) :
    (countToolsFrom k hs)[i]? =
      some ({ Tool := b.Tool, Handle := counting (k + i) b.Handle } :
        ToolHandler (σ × List Nat) C L A M R K) := by
  induction hs generalizing k i with
  | nil => simp at hb
  | cons h t ih =>
    cases i with
    | zero =>
      simp only [List.getElem?_cons_zero, Option.some.injEq] at hb
      subst hb
      simp [countToolsFrom]
    | succ j =>
      simp only [List.getElem?_cons_succ] at hb
      have hk : k + 1 + j = k + (j + 1) := by omega
      simp only [countToolsFrom, List.getElem?_cons_succ, ih (k + 1) j hb, hk]

theorem Start_other (b : Builder σ C L A M R K) (logger : L) (method : String)
    (h1 : method ≠ "initialize") (h2 : method ≠ "prompts/list")
    (h3 : method ≠ "prompts/get") (h4 : method ≠ "resources/list")
    (h5 : method ≠ "resources/read") (h6 : method ≠ "tools/list")
    (h7 : method ≠ "tools/call") : (b.Start logger).get method = none := by
  simp [Builder.Start, GoMap.get, GoMap.set, GoMap.make, h1, h2, h3, h4, h5, h6, h7]

theorem not_mem_names_drop {H : Type} (key : H → String) (n : String) (hs : List H) (m : Nat)
    (hne : ∀ h ∈ hs.drop m, key h ≠ n) : n ∉ (hs.map key).drop m := by
  rw [← List.map_drop]
  exact not_mem_names_of_ne key n (hs.drop m) hne

end Lemmas

/-! ## The three outcomes of a get/read/call handler -/

section Dispatch

variable {σ C L A M R K : Type}

theorem getPrompt_decode_error (logger : L) (hs : List (PromptHandler σ C L A M R K))
    (ctx : C) (req : Request A) (w : σ) (err : GoError)
    (hdec : req.UnmarshalGetPromptParams = .error err) :
    getPrompt logger hs ctx req w =
      ((none, some (Errorf_s_w "error while unmarshalling '" "' request parameters: " ""
        req.Method err)), w) := by
  simp only [getPrompt, hdec]

theorem getPrompt_found (logger : L) (hs : List (PromptHandler σ C L A M R K))
    (ctx : C) (req : Request A) (w : σ) (params : GetPromptRequestParams A)
    (h : PromptHandler σ C L A M R K) (hdec : req.UnmarshalGetPromptParams = .ok params)
    (hl : lookupLast (fun x : PromptHandler σ C L A M R K => x.Prompt.Name) params.Name hs
      = some h) :
    getPrompt logger hs ctx req w = h.Handle ctx logger params w := by
  simp only [getPrompt, hdec, foldl_set_get, hl]

theorem getPrompt_missing (logger : L) (hs : List (PromptHandler σ C L A M R K))
    (ctx : C) (req : Request A) (w : σ) (params : GetPromptRequestParams A)
    (hdec : req.UnmarshalGetPromptParams = .ok params)
    (hl : lookupLast (fun x : PromptHandler σ C L A M R K => x.Prompt.Name) params.Name hs
      = none) :
    getPrompt logger hs ctx req w =
      ((none, some (Errorf_s "prompt '" "' does not exist" params.Name)), w) := by
  simp only [getPrompt, hdec, foldl_set_get, hl]
  rfl

theorem readResource_decode_error (logger : L) (hs : List (ResourceHandler σ C L M R K))
    (ctx : C) (req : Request A) (w : σ) (err : GoError)
    (hdec : req.UnmarshalReadResourceParams = .error err) :
    readResource logger hs ctx req w =
      ((none, some (Errorf_s_w "error while unmarshalling '" "' request parameters: " ""
        req.Method err)), w) := by
  simp only [readResource, hdec]

theorem readResource_found (logger : L) (hs : List (ResourceHandler σ C L M R K))
    (ctx : C) (req : Request A) (w : σ) (params : ReadResourceRequestParams)
    (h : ResourceHandler σ C L M R K) (hdec : req.UnmarshalReadResourceParams = .ok params)
    (hl : lookupLast (fun x : ResourceHandler σ C L M R K => x.Resource.Name) params.Uri hs
      = some h) :
    readResource logger hs ctx req w = h.Handle ctx logger params w := by
  simp only [readResource, hdec, foldl_set_get, hl]

theorem readResource_missing (logger : L) (hs : List (ResourceHandler σ C L M R K))
    (ctx : C) (req : Request A) (w : σ) (params : ReadResourceRequestParams)
    (hdec : req.UnmarshalReadResourceParams = .ok params)
    (hl : lookupLast (fun x : ResourceHandler σ C L M R K => x.Resource.Name) params.Uri hs
      = none) :
    readResource logger hs ctx req w =
      ((none, some (Errorf_s "resource '" "' does not exist" params.Uri)), w) := by
  simp only [readResource, hdec, foldl_set_get, hl]
  rfl

theorem callTool_decode_error (logger : L) (hs : List (ToolHandler σ C L A M R K))
    (ctx : C) (req : Request A) (w : σ) (err : GoError)
    (hdec : req.UnmarshalCallToolParams = .error err) :
    callTool logger hs ctx req w =
      ((none, some (Errorf_s_w "error while unmarshalling '" "' request parameters: " ""
        req.Method err)), w) := by
  simp only [callTool, hdec]

theorem callTool_found (logger : L) (hs : List (ToolHandler σ C L A M R K))
    (ctx : C) (req : Request A) (w : σ) (params : CallToolRequestParams A)
    (h : ToolHandler σ C L A M R K) (hdec : req.UnmarshalCallToolParams = .ok params)
    (hl : lookupLast (fun x : ToolHandler σ C L A M R K => x.Tool.Name) params.Name hs
      = some h) :
    callTool logger hs ctx req w = h.Handle ctx logger params w := by
  simp only [callTool, hdec, foldl_set_get, hl]

theorem callTool_missing (logger : L) (hs : List (ToolHandler σ C L A M R K))
    (ctx : C) (req : Request A) (w : σ) (params : CallToolRequestParams A)
    (hdec : req.UnmarshalCallToolParams = .ok params)
    (hl : lookupLast (fun x : ToolHandler σ C L A M R K => x.Tool.Name) params.Name hs
      = none) :
    callTool logger hs ctx req w =
      ((none, some (Errorf_s "tool '" "' does not exist" params.Name)), w) := by
  simp only [callTool, hdec, foldl_set_get, hl]
  rfl

theorem listPrompts_eq (hs : List (PromptHandler σ C L A M R K)) (ctx : C)
    (req : Request A) (w : σ) :
    listPrompts hs ctx req w =
      ((some (Any.listPromptsResult { Prompts := hs.map (fun h => h.Prompt) }), none), w) := by
  simp [listPrompts, foldl_snoc_eq_map]

theorem listResources_eq (hs : List (ResourceHandler σ C L M R K)) (ctx : C)
    (req : Request A) (w : σ) :
    (listResources hs : Handler σ C A M R K) ctx req w =
      ((some (Any.listResourcesResult { Resources := hs.map (fun h => h.Resource) }), none),
        w) := by
  simp [listResources, foldl_snoc_eq_map]

theorem listTools_eq (hs : List (ToolHandler σ C L A M R K)) (ctx : C)
    (req : Request A) (w : σ) :
    listTools hs ctx req w =
      ((some (Any.listToolsResult { Tools := hs.map (fun h => h.Tool) }), none), w) := by
  simp [listTools, foldl_snoc_eq_map]

end Dispatch

/-! ## Registration chains -/

section Chains

variable {σ C L A M R K : Type}

theorem register_prompts (regs : List (Registration σ C L A M R K))
    (b : Builder σ C L A M R K) :
    (register b regs).prompts.map (fun h => h.Prompt) =
      b.prompts.map (fun h => h.Prompt) ++ registeredPrompts regs := by
  induction regs generalizing b with
  | nil => simp [register, registeredPrompts]
  | cons r rs ih =>
    have hstep : register b (r :: rs) = register (Registration.run b r) rs := rfl
    rw [hstep, ih]
    cases r <;>
      simp [Registration.run, registeredPrompts, Builder.Prompt, Builder.Resource,
        Builder.Tool, Builder.Tools]

theorem register_resources (regs : List (Registration σ C L A M R K))
    (b : Builder σ C L A M R K) :
    (register b regs).resources.map (fun h => h.Resource) =
      b.resources.map (fun h => h.Resource) ++ registeredResources regs := by
  induction regs generalizing b with
  | nil => simp [register, registeredResources]
  | cons r rs ih =>
    have hstep : register b (r :: rs) = register (Registration.run b r) rs := rfl
    rw [hstep, ih]
    cases r <;>
      simp [Registration.run, registeredResources, Builder.Prompt, Builder.Resource,
        Builder.Tool, Builder.Tools]

theorem register_tools (regs : List (Registration σ C L A M R K))
    (b : Builder σ C L A M R K) (hreg : ∀ r ∈ regs, r.isBulk = false) :
    (register b regs).tools.map (fun h => h.Tool) =
      b.tools.map (fun h => h.Tool) ++ registeredTools regs := by
  induction regs generalizing b with
  | nil => simp [register, registeredTools]
  | cons r rs ih =>
    have hstep : register b (r :: rs) = register (Registration.run b r) rs := rfl
    have hr : r.isBulk = false := hreg r (List.mem_cons_self _ _)
    rw [hstep, ih _ (fun x hx => hreg x (List.mem_cons_of_mem _ hx))]
    cases r <;>
      simp_all [Registration.run, registeredTools, Builder.Prompt, Builder.Resource,
        Builder.Tool, Builder.Tools, Registration.isBulk]

end Chains

/-! ## Routing with pairwise distinct names -/

section Routing

variable {σ C L A M R K : Type}

theorem getPrompt_routes (logger : L) (hs : List (PromptHandler σ C L A M R K)) (i : Nat)
    (b : PromptHandler σ C L A M R K) (ctx : C) (req : Request A)
    (params : GetPromptRequestParams A) (w : σ)
    (hnd : (hs.map (fun h => h.Prompt.Name)).Nodup) (hb : hs[i]? = some b)
    (hdec : req.UnmarshalGetPromptParams = .ok params) (hname : params.Name = b.Prompt.Name) :
    getPrompt logger hs ctx req w = b.Handle ctx logger params w ∧
      promptCalls logger hs ctx req w = [i] := by
  constructor
  · exact getPrompt_found logger hs ctx req w params b hdec
      (lookupLast_of_nodup _ _ hs b hnd (List.getElem?_mem hb) hname.symm)
  · have hmem := countPromptsFrom_mem 0 i hs b hb
    have hnd2 : ((countPromptsFrom 0 hs).map (fun h => h.Prompt.Name)).Nodup := by
      rw [countPromptsFrom_names]; exact hnd
    have hl := lookupLast_of_nodup (fun h : PromptHandler (σ × List Nat) C L A M R K =>
      h.Prompt.Name) params.Name (countPromptsFrom 0 hs) _ hnd2 hmem hname.symm
    unfold promptCalls
    rw [getPrompt_found logger _ ctx req (w, []) params _ hdec hl]
    simp [counting]

theorem readResource_routes (logger : L) (hs : List (ResourceHandler σ C L M R K)) (i : Nat)
    (b : ResourceHandler σ C L M R K) (ctx : C) (req : Request A)
    (params : ReadResourceRequestParams) (w : σ)
    (hnd : (hs.map (fun h => h.Resource.Name)).Nodup) (hb : hs[i]? = some b)
    (hdec : req.UnmarshalReadResourceParams = .ok params)
    (hname : params.Uri = b.Resource.Name) :
    readResource logger hs ctx req w = b.Handle ctx logger params w ∧
      resourceCalls logger hs ctx req w = [i] := by
  constructor
  · exact readResource_found logger hs ctx req w params b hdec
      (lookupLast_of_nodup _ _ hs b hnd (List.getElem?_mem hb) hname.symm)
  · have hmem := countResourcesFrom_mem 0 i hs b hb
    have hnd2 : ((countResourcesFrom 0 hs).map (fun h => h.Resource.Name)).Nodup := by
      rw [countResourcesFrom_names]; exact hnd
    have hl := lookupLast_of_nodup (fun h : ResourceHandler (σ × List Nat) C L M R K =>
      h.Resource.Name) params.Uri (countResourcesFrom 0 hs) _ hnd2 hmem hname.symm
    unfold resourceCalls
    rw [readResource_found logger _ ctx req (w, []) params _ hdec hl]
    simp [counting]

theorem callTool_routes (logger : L) (hs : List (ToolHandler σ C L A M R K)) (i : Nat)
    (b : ToolHandler σ C L A M R K) (ctx : C) (req : Request A)
    (params : CallToolRequestParams A) (w : σ)
    (hnd : (hs.map (fun h => h.Tool.Name)).Nodup) (hb : hs[i]? = some b)
    (hdec : req.UnmarshalCallToolParams = .ok params) (hname : params.Name = b.Tool.Name) :
    callTool logger hs ctx req w = b.Handle ctx logger params w ∧
      toolCalls logger hs ctx req w = [i] := by
  constructor
  · exact callTool_found logger hs ctx req w params b hdec
      (lookupLast_of_nodup _ _ hs b hnd (List.getElem?_mem hb) hname.symm)
  · have hmem := countToolsFrom_mem 0 i hs b hb
    have hnd2 : ((countToolsFrom 0 hs).map (fun h => h.Tool.Name)).Nodup := by
      rw [countToolsFrom_names]; exact hnd
    have hl := lookupLast_of_nodup (fun h : ToolHandler (σ × List Nat) C L A M R K =>
      h.Tool.Name) params.Name (countToolsFrom 0 hs) _ hnd2 hmem hname.symm
    unfold toolCalls
    rw [callTool_found logger _ ctx req (w, []) params _ hdec hl]
    simp [counting]

theorem getPrompt_unknown (logger : L) (hs : List (PromptHandler σ C L A M R K)) (ctx : C)
    (req : Request A) (params : GetPromptRequestParams A) (w : σ)
    (hdec : req.UnmarshalGetPromptParams = .ok params)
    (hne : ∀ h ∈ hs, h.Prompt.Name ≠ params.Name) :
    getPrompt logger hs ctx req w =
        ((none, some (GoError.plain ("prompt '" ++ params.Name ++ "' does not exist"))), w) ∧
      promptCalls logger hs ctx req w = [] := by
  have hn := not_mem_names_of_ne (fun h : PromptHandler σ C L A M R K => h.Prompt.Name)
    params.Name hs hne
  constructor
  · exact getPrompt_missing logger hs ctx req w params hdec
      (lookupLast_none_of_not_mem _ _ hs hn)
  · unfold promptCalls
    rw [getPrompt_missing logger _ ctx req (w, []) params hdec
      (lookupLast_none_of_not_mem _ _ _ (by rw [countPromptsFrom_names]; exact hn))]

theorem readResource_unknown (logger : L) (hs : List (ResourceHandler σ C L M R K)) (ctx : C)
    (req : Request A) (params : ReadResourceRequestParams) (w : σ)
    (hdec : req.UnmarshalReadResourceParams = .ok params)
    (hne : ∀ h ∈ hs, h.Resource.Name ≠ params.Uri) :
    readResource logger hs ctx req w =
        ((none, some (GoError.plain ("resource '" ++ params.Uri ++ "' does not exist"))), w) ∧
      resourceCalls logger hs ctx req w = [] := by
  have hn := not_mem_names_of_ne (fun h : ResourceHandler σ C L M R K => h.Resource.Name)
    params.Uri hs hne
  constructor
  · exact readResource_missing logger hs ctx req w params hdec
      (lookupLast_none_of_not_mem _ _ hs hn)
  · unfold resourceCalls
    rw [readResource_missing logger _ ctx req (w, []) params hdec
      (lookupLast_none_of_not_mem _ _ _ (by rw [countResourcesFrom_names]; exact hn))]

theorem callTool_unknown (logger : L) (hs : List (ToolHandler σ C L A M R K)) (ctx : C)
    (req : Request A) (params : CallToolRequestParams A) (w : σ)
    (hdec : req.UnmarshalCallToolParams = .ok params)
    (hne : ∀ h ∈ hs, h.Tool.Name ≠ params.Name) :
    callTool logger hs ctx req w =
        ((none, some (GoError.plain ("tool '" ++ params.Name ++ "' does not exist"))), w) ∧
      toolCalls logger hs ctx req w = [] := by
  have hn := not_mem_names_of_ne (fun h : ToolHandler σ C L A M R K => h.Tool.Name)
    params.Name hs hne
  constructor
  · exact callTool_missing logger hs ctx req w params hdec
      (lookupLast_none_of_not_mem _ _ hs hn)
  · unfold toolCalls
    rw [callTool_missing logger _ ctx req (w, []) params hdec
      (lookupLast_none_of_not_mem _ _ _ (by rw [countToolsFrom_names]; exact hn))]

end Routing

/-! ## Routing with repeated names -/

section LastWins

variable {σ C L A M R K : Type}

theorem getPrompt_routes_last (logger : L) (hs : List (PromptHandler σ C L A M R K))
    (i : Nat) (b : PromptHandler σ C L A M R K) (ctx : C) (req : Request A)
    (params : GetPromptRequestParams A) (w : σ) (hb : hs[i]? = some b)
    (hdec : req.UnmarshalGetPromptParams = .ok params) (hname : b.Prompt.Name = params.Name)
    (hlast : params.Name ∉ (hs.map (fun h => h.Prompt.Name)).drop (i + 1)) :
    getPrompt logger hs ctx req w = b.Handle ctx logger params w ∧
      promptCalls logger hs ctx req w = [i] := by
  constructor
  · exact getPrompt_found logger hs ctx req w params b hdec
      (lookupLast_last _ _ hs i b hb hname hlast)
  · have hl := lookupLast_last (fun h : PromptHandler (σ × List Nat) C L A M R K =>
      h.Prompt.Name) params.Name (countPromptsFrom 0 hs) i _
      (countPromptsFrom_getElem? 0 i hs b hb) hname
      (by rw [countPromptsFrom_names]; exact hlast)
    unfold promptCalls
    rw [getPrompt_found logger _ ctx req (w, []) params _ hdec hl]
    simp [counting]

theorem readResource_routes_last (logger : L) (hs : List (ResourceHandler σ C L M R K))
    (i : Nat) (b : ResourceHandler σ C L M R K) (ctx : C) (req : Request A)
    (params : ReadResourceRequestParams) (w : σ) (hb : hs[i]? = some b)
    (hdec : req.UnmarshalReadResourceParams = .ok params)
    (hname : b.Resource.Name = params.Uri)
    (hlast : params.Uri ∉ (hs.map (fun h => h.Resource.Name)).drop (i + 1)) :
    readResource logger hs ctx req w = b.Handle ctx logger params w ∧
      resourceCalls logger hs ctx req w = [i] := by
  constructor
  · exact readResource_found logger hs ctx req w params b hdec
      (lookupLast_last _ _ hs i b hb hname hlast)
  · have hl := lookupLast_last (fun h : ResourceHandler (σ × List Nat) C L M R K =>
      h.Resource.Name) params.Uri (countResourcesFrom 0 hs) i _
      (countResourcesFrom_getElem? 0 i hs b hb) hname
      (by rw [countResourcesFrom_names]; exact hlast)
    unfold resourceCalls
    rw [readResource_found logger _ ctx req (w, []) params _ hdec hl]
    simp [counting]

theorem callTool_routes_last (logger : L) (hs : List (ToolHandler σ C L A M R K))
    (i : Nat) (b : ToolHandler σ C L A M R K) (ctx : C) (req : Request A)
    (params : CallToolRequestParams A) (w : σ) (hb : hs[i]? = some b)
    (hdec : req.UnmarshalCallToolParams = .ok params) (hname : b.Tool.Name = params.Name)
    (hlast : params.Name ∉ (hs.map (fun h => h.Tool.Name)).drop (i + 1)) :
    callTool logger hs ctx req w = b.Handle ctx logger params w ∧
      toolCalls logger hs ctx req w = [i] := by
  constructor
  · exact callTool_found logger hs ctx req w params b hdec
      (lookupLast_last _ _ hs i b hb hname hlast)
  · have hl := lookupLast_last (fun h : ToolHandler (σ × List Nat) C L A M R K =>
      h.Tool.Name) params.Name (countToolsFrom 0 hs) i _
      (countToolsFrom_getElem? 0 i hs b hb) hname
      (by rw [countToolsFrom_names]; exact hlast)
    unfold toolCalls
    rw [callTool_found logger _ ctx req (w, []) params _ hdec hl]
    simp [counting]

end LastWins

/-! ## Listed names are the reachable names -/

section Listed

variable {σ C L A M R K : Type}

theorem getPrompt_of_listed (logger : L) (hs : List (PromptHandler σ C L A M R K)) (ctx : C)
    (req : Request A) (params : GetPromptRequestParams A) (w : σ)
    (hdec : req.UnmarshalGetPromptParams = .ok params)
    (hmem : params.Name ∈ hs.map (fun h => h.Prompt.Name)) :
    ∃ i b, hs[i]? = some b ∧ b.Prompt.Name = params.Name ∧
      getPrompt logger hs ctx req w = b.Handle ctx logger params w ∧
      promptCalls logger hs ctx req w = [i] := by
  rcases exists_last_position _ _ hs hmem with ⟨i, b, hb, hk, hlast⟩
  have hr := getPrompt_routes_last logger hs i b ctx req params w hb hdec hk hlast
  exact ⟨i, b, hb, hk, hr.1, hr.2⟩

theorem readResource_of_listed (logger : L) (hs : List (ResourceHandler σ C L M R K))
    (ctx : C) (req : Request A) (params : ReadResourceRequestParams) (w : σ)
    (hdec : req.UnmarshalReadResourceParams = .ok params)
    (hmem : params.Uri ∈ hs.map (fun h => h.Resource.Name)) :
    ∃ i b, hs[i]? = some b ∧ b.Resource.Name = params.Uri ∧
      readResource logger hs ctx req w = b.Handle ctx logger params w ∧
      resourceCalls logger hs ctx req w = [i] := by
  rcases exists_last_position _ _ hs hmem with ⟨i, b, hb, hk, hlast⟩
  have hr := readResource_routes_last logger hs i b ctx req params w hb hdec hk hlast
  exact ⟨i, b, hb, hk, hr.1, hr.2⟩

theorem callTool_of_listed (logger : L) (hs : List (ToolHandler σ C L A M R K)) (ctx : C)
    (req : Request A) (params : CallToolRequestParams A) (w : σ)
    (hdec : req.UnmarshalCallToolParams = .ok params)
    (hmem : params.Name ∈ hs.map (fun h => h.Tool.Name)) :
    ∃ i b, hs[i]? = some b ∧ b.Tool.Name = params.Name ∧
      callTool logger hs ctx req w = b.Handle ctx logger params w ∧
      toolCalls logger hs ctx req w = [i] := by
  rcases exists_last_position _ _ hs hmem with ⟨i, b, hb, hk, hlast⟩
  have hr := callTool_routes_last logger hs i b ctx req params w hb hdec hk hlast
  exact ⟨i, b, hb, hk, hr.1, hr.2⟩

theorem getPrompt_not_listed (logger : L) (hs : List (PromptHandler σ C L A M R K)) (ctx : C)
    (req : Request A) (params : GetPromptRequestParams A) (w : σ)
    (hdec : req.UnmarshalGetPromptParams = .ok params)
    (hmem : params.Name ∉ hs.map (fun h => h.Prompt.Name)) :
    getPrompt logger hs ctx req w =
        ((none, some (GoError.plain ("prompt '" ++ params.Name ++ "' does not exist"))), w) ∧
      promptCalls logger hs ctx req w = [] :=
  getPrompt_unknown logger hs ctx req params w hdec
    (fun h hh e => hmem (List.mem_map.2 ⟨h, hh, e⟩))

theorem readResource_not_listed (logger : L) (hs : List (ResourceHandler σ C L M R K))
    (ctx : C) (req : Request A) (params : ReadResourceRequestParams) (w : σ)
    (hdec : req.UnmarshalReadResourceParams = .ok params)
    (hmem : params.Uri ∉ hs.map (fun h => h.Resource.Name)) :
    readResource logger hs ctx req w =
        ((none, some (GoError.plain ("resource '" ++ params.Uri ++ "' does not exist"))), w) ∧
      resourceCalls logger hs ctx req w = [] :=
  readResource_unknown logger hs ctx req params w hdec
    (fun h hh e => hmem (List.mem_map.2 ⟨h, hh, e⟩))

theorem callTool_not_listed (logger : L) (hs : List (ToolHandler σ C L A M R K)) (ctx : C)
    (req : Request A) (params : CallToolRequestParams A) (w : σ)
    (hdec : req.UnmarshalCallToolParams = .ok params)
    (hmem : params.Name ∉ hs.map (fun h => h.Tool.Name)) :
    callTool logger hs ctx req w =
        ((none, some (GoError.plain ("tool '" ++ params.Name ++ "' does not exist"))), w) ∧
      toolCalls logger hs ctx req w = [] :=
  callTool_unknown logger hs ctx req params w hdec
    (fun h hh e => hmem (List.mem_map.2 ⟨h, hh, e⟩))

theorem lookupLast_related {H H2 : Type} (key : H → String) (key2 : H2 → String)
    (rel : H → H2 → Prop) (hkey : ∀ a b, rel a b → key a = key2 b) (n : String)
    (hs : List H) (hs2 : List H2) (hrel : List.Forall₂ rel hs hs2) :
    (lookupLast key n hs = none ∧ lookupLast key2 n hs2 = none) ∨
      ∃ a b, lookupLast key n hs = some a ∧ lookupLast key2 n hs2 = some b ∧ rel a b := by
  induction hrel with
  | nil => exact Or.inl ⟨rfl, rfl⟩
  | @cons a b t t2 hab _ ih =>
    rcases ih with ⟨h1, h2⟩ | ⟨x, y, h1, h2, hxy⟩
    · by_cases hk : n = key a
      · right
        have hk2 : n = key2 b := hk.trans (hkey a b hab)
        refine ⟨a, b, ?_, ?_, hab⟩
        · simp only [lookupLast, h1]
          simp [hk]
        · simp only [lookupLast, h2]
          simp [hk2]
      · left
        have hk2 : ¬ n = key2 b := fun e => hk (e.trans (hkey a b hab).symm)
        exact ⟨by simp [lookupLast, h1, hk], by simp [lookupLast, h2, hk2]⟩
    · right
      exact ⟨x, y, by simp [lookupLast, h1], by simp [lookupLast, h2], hxy⟩

theorem readResource_related (logger : L) (hs : List (ResourceHandler σ C L M R K))
    (hs2 : List (ResourceHandler σ C L M R K)) (ctx : C) (req : Request A) (w : σ)
    (hrel : List.Forall₂ (fun a b : ResourceHandler σ C L M R K =>
      a.Resource.Name = b.Resource.Name ∧ a.Handle = b.Handle) hs hs2) :
    readResource logger hs2 ctx req w = readResource logger hs ctx req w := by
  cases hdec : req.UnmarshalReadResourceParams with
  | error err =>
    rw [readResource_decode_error logger hs2 ctx req w err hdec,
      readResource_decode_error logger hs ctx req w err hdec]
  | ok params =>
    rcases lookupLast_related (fun h : ResourceHandler σ C L M R K => h.Resource.Name)
      (fun h : ResourceHandler σ C L M R K => h.Resource.Name) _ (fun a b hab => hab.1)
      params.Uri hs hs2 hrel with ⟨h1, h2⟩ | ⟨a, b, h1, h2, hab⟩
    · rw [readResource_missing logger hs2 ctx req w params hdec h2,
        readResource_missing logger hs ctx req w params hdec h1]
    · rw [readResource_found logger hs2 ctx req w params b hdec h2,
        readResource_found logger hs ctx req w params a hdec h1, hab.2]

theorem countResourcesFrom_related (k : Nat) (hs hs2 : List (ResourceHandler σ C L M R K))
    (hrel : List.Forall₂ (fun a b : ResourceHandler σ C L M R K =>
      a.Resource.Name = b.Resource.Name ∧ a.Handle = b.Handle) hs hs2) :
    List.Forall₂ (fun a b : ResourceHandler (σ × List Nat) C L M R K =>
      a.Resource.Name = b.Resource.Name ∧ a.Handle = b.Handle)
      (countResourcesFrom k hs) (countResourcesFrom k hs2) := by
  induction hrel generalizing k with
  | nil => exact List.Forall₂.nil
  | cons hab _ ih =>
    exact List.Forall₂.cons ⟨hab.1, by simp [hab.2]⟩ (ih (k + 1))

end Listed

/-! ## Claims -/

section Claims

variable {σ C L A M R K : Type}

/-- C1: for every chain of `Builder.Prompt` / `Builder.Resource` /
`Builder.Tool` calls on a builder returned by `New`, each kind's list handler
built from the resulting builder state returns, for every context, request and
world, a success result (no error, world untouched) whose descriptor sequence
is exactly the sequence of descriptors registered for that kind, in
registration order. -/
theorem list_returns_registered_in_order (defaults : K) (name version : String)
    (opts : List (K → K)) (regs : List (Registration σ C L A M R K))
    (hreg : ∀ r ∈ regs, r.isBulk = false) (ctx : C) (req : Request A) (w : σ) :
    listPrompts (register (New defaults name version opts) regs).prompts ctx req w =
        ((some (Any.listPromptsResult { Prompts := registeredPrompts regs }), none), w) ∧
      listResources (register (New defaults name version opts) regs).resources ctx req w =
        ((some (Any.listResourcesResult { Resources := registeredResources regs }), none),
          w) ∧
      listTools (register (New defaults name version opts) regs).tools ctx req w =
        ((some (Any.listToolsResult { Tools := registeredTools regs }), none), w) := by
  refine ⟨?_, ?_, ?_⟩
  · rw [listPrompts_eq, register_prompts]; simp [New]
  · rw [listResources_eq, register_resources]; simp [New]
  · rw [listTools_eq, register_tools _ _ hreg]; simp [New]

/-- Witness of C1 on a chain of five registrations mixing the three kinds. -/
theorem list_returns_registered_in_order_witness :
    (∀ r ∈ sampleChain, r.isBulk = false) ∧
      (listPrompts (register (New 0 "converse" "0.1" []) sampleChain).prompts ()
          (sampleRequest "prompts/list" "") 0 =
          ((some (Any.listPromptsResult { Prompts := registeredPrompts sampleChain }), none),
            0) ∧
        listResources (register (New 0 "converse" "0.1" []) sampleChain).resources ()
          (sampleRequest "prompts/list" "") 0 =
          ((some (Any.listResourcesResult { Resources := registeredResources sampleChain }),
            none), 0) ∧
        listTools (register (New 0 "converse" "0.1" []) sampleChain).tools ()
          (sampleRequest "prompts/list" "") 0 =
          ((some (Any.listToolsResult { Tools := registeredTools sampleChain }), none), 0)) :=
  ⟨by simp [sampleChain, Registration.isBulk],
    list_returns_registered_in_order 0 "converse" "0.1" [] sampleChain
      (by simp [sampleChain, Registration.isBulk]) () (sampleRequest "prompts/list" "") 0⟩

/-- C2: for each kind and every list of bindings with pairwise distinct names,
a request that decodes with its identifying field (`Name` for prompts/get and
tools/call, `Uri` for resources/read) equal to the name of the binding `b` at
position `i` makes the kind's get/read/call handler run `b`'s handle function
on the world, and the handle functions invoked while serving the request are
exactly one invocation of the one at position `i`. -/
theorem dispatch_routes_to_registered_handler (logger : L) (ctx : C) (req : Request A)
    (w : σ) (i : Nat) :
    (∀ (hs : List (PromptHandler σ C L A M R K)) (b : PromptHandler σ C L A M R K)
        (params : GetPromptRequestParams A),
        (hs.map (fun h => h.Prompt.Name)).Nodup → hs[i]? = some b →
        req.UnmarshalGetPromptParams = .ok params → params.Name = b.Prompt.Name →
        getPrompt logger hs ctx req w = b.Handle ctx logger params w ∧
          promptCalls logger hs ctx req w = [i]) ∧
      (∀ (hs : List (ResourceHandler σ C L M R K)) (b : ResourceHandler σ C L M R K)
        (params : ReadResourceRequestParams),
        (hs.map (fun h => h.Resource.Name)).Nodup → hs[i]? = some b →
        req.UnmarshalReadResourceParams = .ok params → params.Uri = b.Resource.Name →
        readResource logger hs ctx req w = b.Handle ctx logger params w ∧
          resourceCalls logger hs ctx req w = [i]) ∧
      (∀ (hs : List (ToolHandler σ C L A M R K)) (b : ToolHandler σ C L A M R K)
        (params : CallToolRequestParams A),
        (hs.map (fun h => h.Tool.Name)).Nodup → hs[i]? = some b →
        req.UnmarshalCallToolParams = .ok params → params.Name = b.Tool.Name →
        callTool logger hs ctx req w = b.Handle ctx logger params w ∧
          toolCalls logger hs ctx req w = [i]) :=
  ⟨fun hs b params hnd hb hdec hname =>
      getPrompt_routes logger hs i b ctx req params w hnd hb hdec hname,
    fun hs b params hnd hb hdec hname =>
      readResource_routes logger hs i b ctx req params w hnd hb hdec hname,
    fun hs b params hnd hb hdec hname =>
      callTool_routes logger hs i b ctx req params w hnd hb hdec hname⟩

/-- Witness of C2: with tools "add", "echo", "sub" registered, a call for
"echo" runs the binding at position 1 once, and no other. -/
theorem dispatch_routes_to_registered_handler_witness :
    callTool () [sampleTool "add", sampleTool "echo", sampleTool "sub"] ()
        (sampleRequest "tools/call" "echo") 5 =
        (sampleTool "echo").Handle () () { Name := "echo", Arguments := 0 } 5 ∧
      toolCalls () [sampleTool "add", sampleTool "echo", sampleTool "sub"] ()
        (sampleRequest "tools/call" "echo") 5 = [1] :=
  (dispatch_routes_to_registered_handler () () (sampleRequest "tools/call" "echo") 5 1).2.2
    [sampleTool "add", sampleTool "echo", sampleTool "sub"] (sampleTool "echo")
    { Name := "echo", Arguments := 0 } (by simp [sampleTool]) rfl rfl rfl

/-- C3: for each kind, a request that decodes with an identifying name equal
to the name of no registered binding (string equality: exact and
case-sensitive) gets no result and the error whose message is exactly
`<kind> '<n>' does not exist`, the world is untouched, and no handle function
is invoked. -/
theorem unknown_name_is_not_found (logger : L) (ctx : C) (req : Request A) (w : σ) :
    (∀ (hs : List (PromptHandler σ C L A M R K)) (params : GetPromptRequestParams A),
        req.UnmarshalGetPromptParams = .ok params →
        (∀ h ∈ hs, h.Prompt.Name ≠ params.Name) →
        getPrompt logger hs ctx req w =
            ((none, some (GoError.plain ("prompt '" ++ params.Name ++ "' does not exist"))),
              w) ∧
          promptCalls logger hs ctx req w = []) ∧
      (∀ (hs : List (ResourceHandler σ C L M R K)) (params : ReadResourceRequestParams),
        req.UnmarshalReadResourceParams = .ok params →
        (∀ h ∈ hs, h.Resource.Name ≠ params.Uri) →
        readResource logger hs ctx req w =
            ((none, some (GoError.plain ("resource '" ++ params.Uri ++ "' does not exist"))),
              w) ∧
          resourceCalls logger hs ctx req w = []) ∧
      (∀ (hs : List (ToolHandler σ C L A M R K)) (params : CallToolRequestParams A),
        req.UnmarshalCallToolParams = .ok params →
        (∀ h ∈ hs, h.Tool.Name ≠ params.Name) →
        callTool logger hs ctx req w =
            ((none, some (GoError.plain ("tool '" ++ params.Name ++ "' does not exist"))),
              w) ∧
          toolCalls logger hs ctx req w = []) :=
  ⟨fun hs params hdec hne => getPrompt_unknown logger hs ctx req params w hdec hne,
    fun hs params hdec hne => readResource_unknown logger hs ctx req params w hdec hne,
    fun hs params hdec hne => callTool_unknown logger hs ctx req params w hdec hne⟩

/-- Witness of C3: with the tool "Echo" registered, neither "echo" (another
letter case) nor "Ech" (a proper initial segment) is found. -/
theorem unknown_name_is_not_found_witness :
    (callTool () [sampleTool "Echo"] () (sampleRequest "tools/call" "echo") 5 =
        ((none, some (GoError.plain ("tool '" ++ "echo" ++ "' does not exist"))), 5) ∧
      toolCalls () [sampleTool "Echo"] () (sampleRequest "tools/call" "echo") 5 = []) ∧
    (callTool () [sampleTool "Echo"] () (sampleRequest "tools/call" "Ech") 5 =
        ((none, some (GoError.plain ("tool '" ++ "Ech" ++ "' does not exist"))), 5) ∧
      toolCalls () [sampleTool "Echo"] () (sampleRequest "tools/call" "Ech") 5 = []) :=
  ⟨(unknown_name_is_not_found () () (sampleRequest "tools/call" "echo") 5).2.2
      [sampleTool "Echo"] { Name := "echo", Arguments := 0 } rfl (by simp [sampleTool]),
    (unknown_name_is_not_found () () (sampleRequest "tools/call" "Ech") 5).2.2
      [sampleTool "Echo"] { Name := "Ech", Arguments := 0 } rfl (by simp [sampleTool])⟩

/-- C4: for each kind, when the decoded name is the name of some registered
binding, the get/read/call handler returns exactly what the handle function of
a binding registered under that name returns, both components of the pair
`(result, error)` and the world left behind, and that handle function receives
the dispatcher's own context, the logger and the decoded parameters as they
are. -/
theorem handler_outcome_passes_through (logger : L) (ctx : C) (req : Request A) (w : σ) :
    (∀ (hs : List (PromptHandler σ C L A M R K)) (params : GetPromptRequestParams A),
        req.UnmarshalGetPromptParams = .ok params →
        (∃ h ∈ hs, h.Prompt.Name = params.Name) →
        ∃ b ∈ hs, b.Prompt.Name = params.Name ∧
          getPrompt logger hs ctx req w = b.Handle ctx logger params w) ∧
      (∀ (hs : List (ResourceHandler σ C L M R K)) (params : ReadResourceRequestParams),
        req.UnmarshalReadResourceParams = .ok params →
        (∃ h ∈ hs, h.Resource.Name = params.Uri) →
        ∃ b ∈ hs, b.Resource.Name = params.Uri ∧
          readResource logger hs ctx req w = b.Handle ctx logger params w) ∧
      (∀ (hs : List (ToolHandler σ C L A M R K)) (params : CallToolRequestParams A),
        req.UnmarshalCallToolParams = .ok params →
        (∃ h ∈ hs, h.Tool.Name = params.Name) →
        ∃ b ∈ hs, b.Tool.Name = params.Name ∧
          callTool logger hs ctx req w = b.Handle ctx logger params w) := by
  refine ⟨?_, ?_, ?_⟩
  · intro hs params hdec hex
    rcases lookupLast_of_mem (fun h : PromptHandler σ C L A M R K => h.Prompt.Name)
      params.Name hs hex with ⟨b, hb⟩
    have hm := lookupLast_some_mem _ _ hs b hb
    exact ⟨b, hm.1, hm.2, getPrompt_found logger hs ctx req w params b hdec hb⟩
  · intro hs params hdec hex
    rcases lookupLast_of_mem (fun h : ResourceHandler σ C L M R K => h.Resource.Name)
      params.Uri hs hex with ⟨b, hb⟩
    have hm := lookupLast_some_mem _ _ hs b hb
    exact ⟨b, hm.1, hm.2, readResource_found logger hs ctx req w params b hdec hb⟩
  · intro hs params hdec hex
    rcases lookupLast_of_mem (fun h : ToolHandler σ C L A M R K => h.Tool.Name)
      params.Name hs hex with ⟨b, hb⟩
    have hm := lookupLast_some_mem _ _ hs b hb
    exact ⟨b, hm.1, hm.2, callTool_found logger hs ctx req w params b hdec hb⟩

/-- Witness of C4: a tool whose handle function fails with both a payload and
an error is registered beside a succeeding one; a call for it is answered by a
registered binding of that name. -/
theorem handler_outcome_passes_through_witness :
    ∃ b ∈ [sampleTool "echo", failingTool "boom"], b.Tool.Name = "boom" ∧
      callTool () [sampleTool "echo", failingTool "boom"] ()
        (sampleRequest "tools/call" "boom") 5 =
        b.Handle () () { Name := "boom", Arguments := 0 } 5 :=
  (handler_outcome_passes_through () () (sampleRequest "tools/call" "boom") 5).2.2
    [sampleTool "echo", failingTool "boom"] { Name := "boom", Arguments := 0 } rfl
    ⟨failingTool "boom", by simp, rfl⟩

/-- C5: a payload that lacks the required identifying field makes every
get/read/call handler fail with the parameter-decode error (the decoder's
error, wrapped), whatever bindings are registered, a binding under the empty
name included; the world is untouched and no handle function is invoked. -/
theorem payload_without_name_is_decode_error (logger : L) (ctx : C) (method : String)
    (missing : GoError) (p : Payload A) (w : σ) (hp : p.name = none)
    (ps : List (PromptHandler σ C L A M R K)) (rs : List (ResourceHandler σ C L M R K))
    (ts : List (ToolHandler σ C L A M R K)) :
    (getPrompt logger ps ctx (p.request method missing) w =
        ((none, some (GoError.wrapping ("error while unmarshalling '" ++ method ++
          "' request parameters: " ++ missing.Error) missing)), w) ∧
      promptCalls logger ps ctx (p.request method missing) w = []) ∧
    (readResource logger rs ctx (p.request method missing) w =
        ((none, some (GoError.wrapping ("error while unmarshalling '" ++ method ++
          "' request parameters: " ++ missing.Error) missing)), w) ∧
      resourceCalls logger rs ctx (p.request method missing) w = []) ∧
    (callTool logger ts ctx (p.request method missing) w =
        ((none, some (GoError.wrapping ("error while unmarshalling '" ++ method ++
          "' request parameters: " ++ missing.Error) missing)), w) ∧
      toolCalls logger ts ctx (p.request method missing) w = []) := by
  have h1 : (p.request method missing).UnmarshalGetPromptParams = .error missing := by
    simp [Payload.request, hp]
  have h2 : (p.request method missing).UnmarshalReadResourceParams = .error missing := by
    simp [Payload.request, hp]
  have h3 : (p.request method missing).UnmarshalCallToolParams = .error missing := by
    simp [Payload.request, hp]
  have hm : (p.request method missing).Method = method := by
    simp [Payload.request, hp]
  refine ⟨⟨?_, ?_⟩, ⟨?_, ?_⟩, ⟨?_, ?_⟩⟩
  · rw [getPrompt_decode_error logger ps ctx _ w missing h1, hm]
    simp [Errorf_s_w]
  · unfold promptCalls
    rw [getPrompt_decode_error logger _ ctx _ (w, []) missing h1]
  · rw [readResource_decode_error logger rs ctx _ w missing h2, hm]
    simp [Errorf_s_w]
  · unfold resourceCalls
    rw [readResource_decode_error logger _ ctx _ (w, []) missing h2]
  · rw [callTool_decode_error logger ts ctx _ w missing h3, hm]
    simp [Errorf_s_w]
  · unfold toolCalls
    rw [callTool_decode_error logger _ ctx _ (w, []) missing h3]

/-- Witness of C5: a binding of each kind is registered under the empty name
and a payload without identifying field arrives; every handler answers with
the wrapped decode error and invokes nothing. -/
theorem payload_without_name_is_decode_error_witness :
    (Payload.mk none 0 : Payload Nat).name = none ∧
      callTool () [sampleTool "", sampleTool "echo"] ()
        ((Payload.mk none 0 : Payload Nat).request "tools/call"
          (GoError.plain "field name: required")) 5 =
        ((none, some (GoError.wrapping ("error while unmarshalling '" ++ "tools/call" ++
          "' request parameters: " ++ (GoError.plain "field name: required").Error)
          (GoError.plain "field name: required"))), 5) ∧
      toolCalls () [sampleTool "", sampleTool "echo"] ()
        ((Payload.mk none 0 : Payload Nat).request "tools/call"
          (GoError.plain "field name: required")) 5 = [] :=
  ⟨rfl, (payload_without_name_is_decode_error () () "tools/call"
    (GoError.plain "field name: required") (Payload.mk none 0) 5 rfl
    [samplePrompt ""] [sampleResource "" ""] [sampleTool "", sampleTool "echo"]).2.2⟩

/-- C6: for each kind, when decoding the request's parameters returns the
error `e`, the get/read/call handler returns no result and an error that
unwraps to `e` and whose message is exactly
`error while unmarshalling '<method>' request parameters: <e>`, with `<method>`
the request's method name; the world is untouched and no handle function is
invoked, whatever bindings are registered. -/
theorem decode_failure_is_wrapped (logger : L) (ctx : C) (req : Request A) (w : σ)
    (e : GoError) :
    (∀ hs : List (PromptHandler σ C L A M R K), req.UnmarshalGetPromptParams = .error e →
        ∃ err, getPrompt logger hs ctx req w = ((none, some err), w) ∧
          err.Unwrap = some e ∧
          err.Error = "error while unmarshalling '" ++ req.Method ++
            "' request parameters: " ++ e.Error ∧
          promptCalls logger hs ctx req w = []) ∧
      (∀ hs : List (ResourceHandler σ C L M R K), req.UnmarshalReadResourceParams = .error e →
        ∃ err, readResource logger hs ctx req w = ((none, some err), w) ∧
          err.Unwrap = some e ∧
          err.Error = "error while unmarshalling '" ++ req.Method ++
            "' request parameters: " ++ e.Error ∧
          resourceCalls logger hs ctx req w = []) ∧
      (∀ hs : List (ToolHandler σ C L A M R K), req.UnmarshalCallToolParams = .error e →
        ∃ err, callTool logger hs ctx req w = ((none, some err), w) ∧
          err.Unwrap = some e ∧
          err.Error = "error while unmarshalling '" ++ req.Method ++
            "' request parameters: " ++ e.Error ∧
          toolCalls logger hs ctx req w = []) := by
  refine ⟨?_, ?_, ?_⟩
  · intro hs hdec
    refine ⟨_, getPrompt_decode_error logger hs ctx req w e hdec, rfl, ?_, ?_⟩
    · simp [Errorf_s_w, GoError.Error]
    · unfold promptCalls
      rw [getPrompt_decode_error logger _ ctx req (w, []) e hdec]
  · intro hs hdec
    refine ⟨_, readResource_decode_error logger hs ctx req w e hdec, rfl, ?_, ?_⟩
    · simp [Errorf_s_w, GoError.Error]
    · unfold resourceCalls
      rw [readResource_decode_error logger _ ctx req (w, []) e hdec]
  · intro hs hdec
    refine ⟨_, callTool_decode_error logger hs ctx req w e hdec, rfl, ?_, ?_⟩
    · simp [Errorf_s_w, GoError.Error]
    · unfold toolCalls
      rw [callTool_decode_error logger _ ctx req (w, []) e hdec]

/-- Witness of C6: a resources/read request whose parameters fail to decode
with "unexpected end of JSON input", served with a resource registered. -/
theorem decode_failure_is_wrapped_witness :
    ∃ err, readResource () [sampleResource "readme" "file:///readme"] ()
        (brokenRequest "resources/read" (GoError.plain "unexpected end of JSON input")) 5 =
        ((none, some err), 5) ∧
      err.Unwrap = some (GoError.plain "unexpected end of JSON input") ∧
      err.Error = "error while unmarshalling '" ++
        (brokenRequest "resources/read" (GoError.plain "unexpected end of JSON input")).Method ++
        "' request parameters: " ++ (GoError.plain "unexpected end of JSON input").Error ∧
      resourceCalls () [sampleResource "readme" "file:///readme"] ()
        (brokenRequest "resources/read" (GoError.plain "unexpected end of JSON input")) 5 = [] :=
  (decode_failure_is_wrapped () ()
    (brokenRequest "resources/read" (GoError.plain "unexpected end of JSON input")) 5
    (GoError.plain "unexpected end of JSON input")).2.1
    [sampleResource "readme" "file:///readme"] rfl

/-- C7: for a builder made by `New name version opts` and any chain of
`Prompt` / `Resource` / `Tool` / `Tools` registrations, the method table of
`Start` holds under "initialize" a handler that returns, for every context,
request and world, a success result with no error, protocol version
"2025-03-26", server info `{name, version}` and the capabilities obtained by
applying `opts` in order to the default capabilities, leaving the world
untouched; hence any two calls return the same result. -/
theorem initialize_result_is_fixed (defaults : K) (name version : String)
    (opts : List (K → K)) (regs : List (Registration σ C L A M R K)) (logger : L) :
    ∃ h : Handler σ C A M R K,
      ((register (New defaults name version opts) regs).Start logger).get "initialize" =
        some h ∧
      (∀ (ctx : C) (req : Request A) (w : σ), h ctx req w =
        ((some (Any.initializeResult
          { ProtocolVersion := "2025-03-26"
            ServerInfo := { Name := name, Version := version }
            Capabilities := applyOptions opts defaults }), none), w)) ∧
      (∀ (ctx ctx2 : C) (req req2 : Request A) (w w2 : σ),
        (h ctx req w).1 = (h ctx2 req2 w2).1) := by
  refine ⟨_, Start_initialize _ logger, ?_, ?_⟩
  · intro ctx req w
    simp only [initializeHandler, register_capabilities, register_serverInfo, New,
      applyOptions_eq_foldl, protocolVersion]
  · intro ctx ctx2 req req2 w w2
    rfl

/-- C8: after `Builder.Tools ts` the tool collection is exactly `ts`, in order,
whatever was registered before: tools/list returns the descriptors of `ts`,
tools/call finds no name that is not a name of `ts` (an earlier tool under
such a name is gone), and a following `Builder.Tool t handle` gives `ts`
followed by the new binding.  Prompts, resources, server info and
capabilities are as before. -/
theorem tools_replaces_collection (b : Builder σ C L A M R K)
    (ts : List (ToolHandler σ C L A M R K)) (logger : L) (ctx : C) (req : Request A) (w : σ) :
    (b.Tools ts).tools = ts ∧
      (b.Tools ts).prompts = b.prompts ∧
      (b.Tools ts).resources = b.resources ∧
      (b.Tools ts).serverInfo = b.serverInfo ∧
      (b.Tools ts).capabilities = b.capabilities ∧
      listTools (b.Tools ts).tools ctx req w =
        ((some (Any.listToolsResult { Tools := ts.map (fun h => h.Tool) }), none), w) ∧
      (∀ params : CallToolRequestParams A, req.UnmarshalCallToolParams = .ok params →
        (∀ h ∈ ts, h.Tool.Name ≠ params.Name) →
        callTool logger (b.Tools ts).tools ctx req w =
            ((none, some (GoError.plain ("tool '" ++ params.Name ++ "' does not exist"))),
              w) ∧
          toolCalls logger (b.Tools ts).tools ctx req w = []) ∧
      (∀ (t : Tool M) (handle : ToolHandleFunc σ C L A M R K),
        ((b.Tools ts).Tool t handle).tools = ts ++ [{ Tool := t, Handle := handle }]) := by
  refine ⟨rfl, rfl, rfl, rfl, rfl, listTools_eq _ ctx req w, ?_, fun _ _ => rfl⟩
  intro params hdec hne
  exact callTool_unknown logger ts ctx req params w hdec hne

/-- Witness of C8: the tool "old" is registered, then `Tools` installs "echo"
alone; a call for "old" is not found and invokes nothing. -/
theorem tools_replaces_collection_witness :
    callTool ()
        (((New 0 "converse" "0.1" []).Tool (sampleTool "old").Tool
          (sampleTool "old").Handle).Tools [sampleTool "echo"]).tools ()
        (sampleRequest "tools/call" "old") 5 =
        ((none, some (GoError.plain ("tool '" ++ "old" ++ "' does not exist"))), 5) ∧
      toolCalls ()
        (((New 0 "converse" "0.1" []).Tool (sampleTool "old").Tool
          (sampleTool "old").Handle).Tools [sampleTool "echo"]).tools ()
        (sampleRequest "tools/call" "old") 5 = [] :=
  (tools_replaces_collection
    ((New 0 "converse" "0.1" []).Tool (sampleTool "old").Tool (sampleTool "old").Handle)
    [sampleTool "echo"] () () (sampleRequest "tools/call" "old") 5).2.2.2.2.2.2.1
    { Name := "old", Arguments := 0 } rfl (by simp [sampleTool])

/-- C9: the three kinds have independent namespaces.  Each of `Builder.Prompt`,
`Builder.Resource` and `Builder.Tool` appends one binding to its own kind's
collection and leaves the other two collections as they are; in the method
table of `Start` each kind's list and get/read/call handlers are built from
that kind's collection alone, so two builder states that agree on one kind's
collection answer that kind's methods alike, and a registration of one kind
changes no method outside that kind; and a prompt, a resource and a tool all
registered under one name `n` are each listed under their own kind and each
reached by their own kind's get/read/call method. -/
theorem kinds_are_independent (defaults : K) (name version : String) (opts : List (K → K))
    (b : Builder σ C L A M R K) (logger : L) :
    ((∀ (p : Prompt M) (h : PromptHandleFunc σ C L A M R K),
        (b.Prompt p h).prompts = b.prompts ++ [{ Prompt := p, Handle := h }] ∧
          (b.Prompt p h).resources = b.resources ∧ (b.Prompt p h).tools = b.tools) ∧
      (∀ (r : Resource M) (h : ResourceHandleFunc σ C L M R K),
        (b.Resource r h).resources = b.resources ++ [{ Resource := r, Handle := h }] ∧
          (b.Resource r h).prompts = b.prompts ∧ (b.Resource r h).tools = b.tools) ∧
      (∀ (t : Tool M) (h : ToolHandleFunc σ C L A M R K),
        (b.Tool t h).tools = b.tools ++ [{ Tool := t, Handle := h }] ∧
          (b.Tool t h).prompts = b.prompts ∧ (b.Tool t h).resources = b.resources)) ∧
    ((b.Start logger).get "prompts/list" = some (listPrompts b.prompts) ∧
      (b.Start logger).get "prompts/get" = some (getPrompt logger b.prompts) ∧
      (b.Start logger).get "resources/list" = some (listResources b.resources) ∧
      (b.Start logger).get "resources/read" = some (readResource logger b.resources) ∧
      (b.Start logger).get "tools/list" = some (listTools b.tools) ∧
      (b.Start logger).get "tools/call" = some (callTool logger b.tools)) ∧
    ((∀ b2 : Builder σ C L A M R K, b2.prompts = b.prompts →
        (b2.Start logger).get "prompts/list" = (b.Start logger).get "prompts/list" ∧
          (b2.Start logger).get "prompts/get" = (b.Start logger).get "prompts/get") ∧
      (∀ b2 : Builder σ C L A M R K, b2.resources = b.resources →
        (b2.Start logger).get "resources/list" = (b.Start logger).get "resources/list" ∧
          (b2.Start logger).get "resources/read" = (b.Start logger).get "resources/read") ∧
      (∀ b2 : Builder σ C L A M R K, b2.tools = b.tools →
        (b2.Start logger).get "tools/list" = (b.Start logger).get "tools/list" ∧
          (b2.Start logger).get "tools/call" = (b.Start logger).get "tools/call")) ∧
    ((∀ (p : Prompt M) (h : PromptHandleFunc σ C L A M R K) (method : String),
        method ≠ "prompts/list" → method ≠ "prompts/get" →
        ((b.Prompt p h).Start logger).get method = (b.Start logger).get method) ∧
      (∀ (r : Resource M) (h : ResourceHandleFunc σ C L M R K) (method : String),
        method ≠ "resources/list" → method ≠ "resources/read" →
        ((b.Resource r h).Start logger).get method = (b.Start logger).get method) ∧
      (∀ (t : Tool M) (h : ToolHandleFunc σ C L A M R K) (method : String),
        method ≠ "tools/list" → method ≠ "tools/call" →
        ((b.Tool t h).Start logger).get method = (b.Start logger).get method) ∧
      (∀ (ts : List (ToolHandler σ C L A M R K)) (method : String),
        method ≠ "tools/list" → method ≠ "tools/call" →
        ((b.Tools ts).Start logger).get method = (b.Start logger).get method)) ∧
    (∀ (n uri : String) (pm rm tm : M) (hp : PromptHandleFunc σ C L A M R K)
        (hr : ResourceHandleFunc σ C L M R K) (ht : ToolHandleFunc σ C L A M R K)
        (ctx : C) (req : Request A) (w : σ) (pa ta : A),
        req.UnmarshalGetPromptParams = .ok { Name := n, Arguments := pa } →
        req.UnmarshalReadResourceParams = .ok { Uri := n } →
        req.UnmarshalCallToolParams = .ok { Name := n, Arguments := ta } →
        (listPrompts ((((New defaults name version opts : Builder σ C L A M R K).Prompt
              { Name := n, Metadata := pm } hp).Resource
              { Name := n, Uri := uri, Metadata := rm } hr).Tool
              { Name := n, Metadata := tm } ht).prompts ctx req w =
            ((some (Any.listPromptsResult { Prompts := [{ Name := n, Metadata := pm }] }),
              none), w) ∧
          listResources ((((New defaults name version opts : Builder σ C L A M R K).Prompt
              { Name := n, Metadata := pm } hp).Resource
              { Name := n, Uri := uri, Metadata := rm } hr).Tool
              { Name := n, Metadata := tm } ht).resources ctx req w =
            ((some (Any.listResourcesResult
              { Resources := [{ Name := n, Uri := uri, Metadata := rm }] }), none), w) ∧
          listTools ((((New defaults name version opts : Builder σ C L A M R K).Prompt
              { Name := n, Metadata := pm } hp).Resource
              { Name := n, Uri := uri, Metadata := rm } hr).Tool
              { Name := n, Metadata := tm } ht).tools ctx req w =
            ((some (Any.listToolsResult { Tools := [{ Name := n, Metadata := tm }] }),
              none), w)) ∧
        (getPrompt logger ((((New defaults name version opts : Builder σ C L A M R K).Prompt
              { Name := n, Metadata := pm } hp).Resource
              { Name := n, Uri := uri, Metadata := rm } hr).Tool
              { Name := n, Metadata := tm } ht).prompts ctx req w =
            hp ctx logger { Name := n, Arguments := pa } w ∧
          readResource logger
              ((((New defaults name version opts : Builder σ C L A M R K).Prompt
              { Name := n, Metadata := pm } hp).Resource
              { Name := n, Uri := uri, Metadata := rm } hr).Tool
              { Name := n, Metadata := tm } ht).resources ctx req w =
            hr ctx logger { Uri := n } w ∧
          callTool logger ((((New defaults name version opts : Builder σ C L A M R K).Prompt
              { Name := n, Metadata := pm } hp).Resource
              { Name := n, Uri := uri, Metadata := rm } hr).Tool
              { Name := n, Metadata := tm } ht).tools ctx req w =
            ht ctx logger { Name := n, Arguments := ta } w)) := by
  refine ⟨⟨fun _ _ => ⟨rfl, rfl, rfl⟩, fun _ _ => ⟨rfl, rfl, rfl⟩, fun _ _ => ⟨rfl, rfl, rfl⟩⟩,
    ⟨Start_prompts_list b logger, Start_prompts_get b logger, Start_resources_list b logger,
      Start_resources_read b logger, Start_tools_list b logger, Start_tools_call b logger⟩,
    ⟨?_, ?_, ?_⟩, ⟨?_, ?_, ?_, ?_⟩, ?_⟩
  · intro b2 h2
    rw [Start_prompts_list, Start_prompts_list, Start_prompts_get, Start_prompts_get, h2]
    exact ⟨rfl, rfl⟩
  · intro b2 h2
    rw [Start_resources_list, Start_resources_list, Start_resources_read,
      Start_resources_read, h2]
    exact ⟨rfl, rfl⟩
  · intro b2 h2
    rw [Start_tools_list, Start_tools_list, Start_tools_call, Start_tools_call, h2]
    exact ⟨rfl, rfl⟩
  · intro p h method h1 h2
    simp [Builder.Start, Builder.Prompt, GoMap.get, GoMap.set, h1, h2]
  · intro r h method h1 h2
    simp [Builder.Start, Builder.Resource, GoMap.get, GoMap.set, h1, h2]
  · intro t h method h1 h2
    simp [Builder.Start, Builder.Tool, GoMap.get, GoMap.set, h1, h2]
  · intro ts method h1 h2
    simp [Builder.Start, Builder.Tools, GoMap.get, GoMap.set, h1, h2]
  · intro n uri pm rm tm hp hr ht ctx req w pa ta hd1 hd2 hd3
    refine ⟨⟨rfl, rfl, rfl⟩, ?_, ?_, ?_⟩
    · exact getPrompt_found logger _ ctx req w _ ⟨⟨n, pm⟩, hp⟩ hd1
        (by simp [New, Builder.Prompt, Builder.Resource, Builder.Tool, lookupLast])
    · exact readResource_found logger _ ctx req w _ ⟨⟨n, uri, rm⟩, hr⟩ hd2
        (by simp [New, Builder.Prompt, Builder.Resource, Builder.Tool, lookupLast])
    · exact callTool_found logger _ ctx req w _ ⟨⟨n, tm⟩, ht⟩ hd3
        (by simp [New, Builder.Prompt, Builder.Resource, Builder.Tool, lookupLast])

/-- Witness of C9: a prompt, a resource and a tool are all registered under the
name "same"; a request naming "same" reaches each kind's own binding. -/
theorem kinds_are_independent_witness :
    getPrompt () ((((New 0 "converse" "0.1" [] :
          Builder Nat Unit Unit Nat Unit String Nat).Prompt
          { Name := "same", Metadata := () } (samplePrompt "same").Handle).Resource
          { Name := "same", Uri := "file:///same", Metadata := () }
          (sampleResource "same" "file:///same").Handle).Tool
          { Name := "same", Metadata := () } (failingTool "same").Handle).prompts ()
        (sampleRequest "prompts/get" "same") 5 =
        (samplePrompt "same").Handle () () { Name := "same", Arguments := 0 } 5 ∧
      readResource () ((((New 0 "converse" "0.1" [] :
          Builder Nat Unit Unit Nat Unit String Nat).Prompt
          { Name := "same", Metadata := () } (samplePrompt "same").Handle).Resource
          { Name := "same", Uri := "file:///same", Metadata := () }
          (sampleResource "same" "file:///same").Handle).Tool
          { Name := "same", Metadata := () } (failingTool "same").Handle).resources ()
        (sampleRequest "prompts/get" "same") 5 =
        (sampleResource "same" "file:///same").Handle () () { Uri := "same" } 5 ∧
      callTool () ((((New 0 "converse" "0.1" [] :
          Builder Nat Unit Unit Nat Unit String Nat).Prompt
          { Name := "same", Metadata := () } (samplePrompt "same").Handle).Resource
          { Name := "same", Uri := "file:///same", Metadata := () }
          (sampleResource "same" "file:///same").Handle).Tool
          { Name := "same", Metadata := () } (failingTool "same").Handle).tools ()
        (sampleRequest "prompts/get" "same") 5 =
        (failingTool "same").Handle () () { Name := "same", Arguments := 0 } 5 :=
  ((kinds_are_independent 0 "converse" "0.1" []
    (New 0 "converse" "0.1" [] : Builder Nat Unit Unit Nat Unit String Nat) ()).2.2.2.2
    "same" "file:///same" () () () (samplePrompt "same").Handle
    (sampleResource "same" "file:///same").Handle (failingTool "same").Handle ()
    (sampleRequest "prompts/get" "same") 5 0 0 rfl rfl rfl).2

/-- C10: a kind with no binding (each kind of a builder fresh from `New`, and
the tools of any builder after `Tools` with no argument) answers its list
method with a success result holding the empty sequence, and answers every
get/read/call request whose parameters decode with the not-found error for the
requested name, invoking nothing. -/
theorem empty_kind_lists_nothing_finds_nothing (defaults : K) (name version : String)
    (opts : List (K → K)) (b : Builder σ C L A M R K) (logger : L) (ctx : C)
    (req : Request A) (w : σ) :
    (listPrompts (New defaults name version opts : Builder σ C L A M R K).prompts ctx req w =
        ((some (Any.listPromptsResult { Prompts := [] }), none), w) ∧
      listResources (New defaults name version opts : Builder σ C L A M R K).resources
          ctx req w =
        ((some (Any.listResourcesResult { Resources := [] }), none), w) ∧
      listTools (New defaults name version opts : Builder σ C L A M R K).tools ctx req w =
        ((some (Any.listToolsResult { Tools := [] }), none), w) ∧
      listTools (b.Tools []).tools ctx req w =
        ((some (Any.listToolsResult { Tools := [] }), none), w)) ∧
    (∀ params : GetPromptRequestParams A, req.UnmarshalGetPromptParams = .ok params →
      getPrompt logger (New defaults name version opts : Builder σ C L A M R K).prompts
          ctx req w =
          ((none, some (GoError.plain ("prompt '" ++ params.Name ++ "' does not exist"))),
            w) ∧
        promptCalls logger (New defaults name version opts : Builder σ C L A M R K).prompts
          ctx req w = []) ∧
    (∀ params : ReadResourceRequestParams, req.UnmarshalReadResourceParams = .ok params →
      readResource logger (New defaults name version opts : Builder σ C L A M R K).resources
          ctx req w =
          ((none, some (GoError.plain ("resource '" ++ params.Uri ++ "' does not exist"))),
            w) ∧
        resourceCalls logger
          (New defaults name version opts : Builder σ C L A M R K).resources ctx req w = []) ∧
    (∀ params : CallToolRequestParams A, req.UnmarshalCallToolParams = .ok params →
      (callTool logger (New defaults name version opts : Builder σ C L A M R K).tools
          ctx req w =
          ((none, some (GoError.plain ("tool '" ++ params.Name ++ "' does not exist"))),
            w) ∧
        toolCalls logger (New defaults name version opts : Builder σ C L A M R K).tools
          ctx req w = []) ∧
      (callTool logger (b.Tools []).tools ctx req w =
          ((none, some (GoError.plain ("tool '" ++ params.Name ++ "' does not exist"))),
            w) ∧
        toolCalls logger (b.Tools []).tools ctx req w = [])) := by
  refine ⟨⟨rfl, rfl, rfl, rfl⟩, ?_, ?_, ?_⟩
  · intro params hdec
    exact getPrompt_unknown logger [] ctx req params w hdec (by simp)
  · intro params hdec
    exact readResource_unknown logger [] ctx req params w hdec (by simp)
  · intro params hdec
    exact ⟨callTool_unknown logger [] ctx req params w hdec (by simp),
      callTool_unknown logger [] ctx req params w hdec (by simp)⟩

/-- Witness of C10: on a builder fresh from `New`, prompts/get for "greet" is
not found. -/
theorem empty_kind_lists_nothing_finds_nothing_witness :
    getPrompt ()
        (New 0 "converse" "0.1" [] : Builder Nat Unit Unit Nat Unit String Nat).prompts ()
        (sampleRequest "prompts/get" "greet") 5 =
        ((none, some (GoError.plain ("prompt '" ++ "greet" ++ "' does not exist"))), 5) ∧
      promptCalls ()
        (New 0 "converse" "0.1" [] : Builder Nat Unit Unit Nat Unit String Nat).prompts ()
        (sampleRequest "prompts/get" "greet") 5 = [] :=
  (empty_kind_lists_nothing_finds_nothing 0 "converse" "0.1" []
    (New 0 "converse" "0.1" [] : Builder Nat Unit Unit Nat Unit String Nat) () ()
    (sampleRequest "prompts/get" "greet") 5).2.1 { Name := "greet", Arguments := 0 } rfl

/-- C11: repeated names within a kind are accepted and the last registration
wins.  For each kind, when `b` sits at position `i`, carries the requested
name, and no binding registered after position `i` carries that name, the
get/read/call handler runs `b`'s handle function and the handle functions
invoked are exactly one invocation of position `i` (no earlier binding of the
same name runs); the kind's list handler still returns the descriptor of every
registration in registration order, as many as there are registrations. -/
theorem duplicate_names_last_wins (logger : L) (ctx : C) (req : Request A) (w : σ)
    (i : Nat) :
    (∀ (hs : List (PromptHandler σ C L A M R K)) (b : PromptHandler σ C L A M R K)
        (params : GetPromptRequestParams A),
        hs[i]? = some b → req.UnmarshalGetPromptParams = .ok params →
        b.Prompt.Name = params.Name →
        (∀ h ∈ hs.drop (i + 1), h.Prompt.Name ≠ params.Name) →
        getPrompt logger hs ctx req w = b.Handle ctx logger params w ∧
          promptCalls logger hs ctx req w = [i] ∧
          listPrompts hs ctx req w =
            ((some (Any.listPromptsResult { Prompts := hs.map (fun h => h.Prompt) }), none),
              w) ∧
          (hs.map (fun h => h.Prompt)).length = hs.length) ∧
      (∀ (hs : List (ResourceHandler σ C L M R K)) (b : ResourceHandler σ C L M R K)
        (params : ReadResourceRequestParams),
        hs[i]? = some b → req.UnmarshalReadResourceParams = .ok params →
        b.Resource.Name = params.Uri →
        (∀ h ∈ hs.drop (i + 1), h.Resource.Name ≠ params.Uri) →
        readResource logger hs ctx req w = b.Handle ctx logger params w ∧
          resourceCalls logger hs ctx req w = [i] ∧
          listResources hs ctx req w =
            ((some (Any.listResourcesResult { Resources := hs.map (fun h => h.Resource) }),
              none), w) ∧
          (hs.map (fun h => h.Resource)).length = hs.length) ∧
      (∀ (hs : List (ToolHandler σ C L A M R K)) (b : ToolHandler σ C L A M R K)
        (params : CallToolRequestParams A),
        hs[i]? = some b → req.UnmarshalCallToolParams = .ok params →
        b.Tool.Name = params.Name →
        (∀ h ∈ hs.drop (i + 1), h.Tool.Name ≠ params.Name) →
        callTool logger hs ctx req w = b.Handle ctx logger params w ∧
          toolCalls logger hs ctx req w = [i] ∧
          listTools hs ctx req w =
            ((some (Any.listToolsResult { Tools := hs.map (fun h => h.Tool) }), none), w) ∧
          (hs.map (fun h => h.Tool)).length = hs.length) := by
  refine ⟨?_, ?_, ?_⟩
  · intro hs b params hb hdec hname hlast
    have hr := getPrompt_routes_last logger hs i b ctx req params w hb hdec hname
      (not_mem_names_drop _ _ hs (i + 1) hlast)
    exact ⟨hr.1, hr.2, listPrompts_eq hs ctx req w, List.length_map _ _⟩
  · intro hs b params hb hdec hname hlast
    have hr := readResource_routes_last logger hs i b ctx req params w hb hdec hname
      (not_mem_names_drop _ _ hs (i + 1) hlast)
    exact ⟨hr.1, hr.2, listResources_eq hs ctx req w, List.length_map _ _⟩
  · intro hs b params hb hdec hname hlast
    have hr := callTool_routes_last logger hs i b ctx req params w hb hdec hname
      (not_mem_names_drop _ _ hs (i + 1) hlast)
    exact ⟨hr.1, hr.2, listTools_eq hs ctx req w, List.length_map _ _⟩

/-- Witness of C11: "echo" is registered twice, first as a succeeding tool and
last as a failing one, with "add" in between; a call for "echo" runs the
failing one at position 2 only, and tools/list still has three entries. -/
theorem duplicate_names_last_wins_witness :
    callTool () [sampleTool "echo", sampleTool "add", failingTool "echo"] ()
        (sampleRequest "tools/call" "echo") 5 =
        (failingTool "echo").Handle () () { Name := "echo", Arguments := 0 } 5 ∧
      toolCalls () [sampleTool "echo", sampleTool "add", failingTool "echo"] ()
        (sampleRequest "tools/call" "echo") 5 = [2] ∧
      listTools [sampleTool "echo", sampleTool "add", failingTool "echo"] ()
        (sampleRequest "tools/call" "echo") 5 =
        ((some (Any.listToolsResult
          { Tools := [sampleTool "echo", sampleTool "add", failingTool "echo"].map
              (fun h => h.Tool) }), none), 5) ∧
      ([sampleTool "echo", sampleTool "add", failingTool "echo"].map
        (fun h => h.Tool)).length =
        [sampleTool "echo", sampleTool "add", failingTool "echo"].length :=
  (duplicate_names_last_wins () () (sampleRequest "tools/call" "echo") 5 2).2.2
    [sampleTool "echo", sampleTool "add", failingTool "echo"] (failingTool "echo")
    { Name := "echo", Arguments := 0 } rfl rfl rfl (by simp)

/-- C12: the method table built by `Start` resolves exactly seven method names,
each to the handler of its own kind and operation built from the builder
state, and resolves every other method name to no handler, whatever has been
registered. -/
theorem method_table_resolves_seven_names (b : Builder σ C L A M R K) (logger : L) :
    ((b.Start logger).get "initialize" =
        some (initializeHandler b.capabilities b.serverInfo) ∧
      (b.Start logger).get "prompts/list" = some (listPrompts b.prompts) ∧
      (b.Start logger).get "prompts/get" = some (getPrompt logger b.prompts) ∧
      (b.Start logger).get "resources/list" = some (listResources b.resources) ∧
      (b.Start logger).get "resources/read" = some (readResource logger b.resources) ∧
      (b.Start logger).get "tools/list" = some (listTools b.tools) ∧
      (b.Start logger).get "tools/call" = some (callTool logger b.tools)) ∧
    (∀ method : String,
      method ∉ ["initialize", "prompts/list", "prompts/get", "resources/list",
        "resources/read", "tools/list", "tools/call"] →
      (b.Start logger).get method = none) := by
  refine ⟨⟨ Start_initialize b logger, Start_prompts_list b logger, Start_prompts_get b logger,
    Start_resources_list b logger, Start_resources_read b logger, Start_tools_list b logger,
    Start_tools_call b logger⟩, ?_⟩
  intro method hm
  simp only [List.mem_cons, List.mem_singleton, not_or, List.mem_nil_iff, not_false_eq_true,
    and_true] at hm
  exact Start_other b logger method hm.1 hm.2.1 hm.2.2.1 hm.2.2.2.1 hm.2.2.2.2.1
    hm.2.2.2.2.2.1 hm.2.2.2.2.2.2

/-- Witness of C12: on a builder with registrations of all three kinds, the
names "tools/get", "resources/get", "prompts/call", "Initialize" and the empty
name resolve to no handler. -/
theorem method_table_resolves_seven_names_witness :
    ((register (New 0 "converse" "0.1" []) sampleChain).Start ()).get "tools/get" = none ∧
      ((register (New 0 "converse" "0.1" []) sampleChain).Start ()).get "resources/get" =
        none ∧
      ((register (New 0 "converse" "0.1" []) sampleChain).Start ()).get "prompts/call" =
        none ∧
      ((register (New 0 "converse" "0.1" []) sampleChain).Start ()).get "Initialize" = none ∧
      ((register (New 0 "converse" "0.1" []) sampleChain).Start ()).get "" = none :=
  ⟨(method_table_resolves_seven_names (register (New 0 "converse" "0.1" []) sampleChain)
      ()).2 "tools/get" (by decide),
    (method_table_resolves_seven_names (register (New 0 "converse" "0.1" []) sampleChain)
      ()).2 "resources/get" (by decide),
    (method_table_resolves_seven_names (register (New 0 "converse" "0.1" []) sampleChain)
      ()).2 "prompts/call" (by decide),
    (method_table_resolves_seven_names (register (New 0 "converse" "0.1" []) sampleChain)
      ()).2 "Initialize" (by decide),
    (method_table_resolves_seven_names (register (New 0 "converse" "0.1" []) sampleChain)
      ()).2 "" (by decide)⟩

/-- C13: resources/read matches the request's `Uri` against the registered
resources' `Name` field and never against their `Uri` field.  For a request
that decodes with `Uri` equal to `u`, a handle function is invoked exactly when
some registered resource has `Name` equal to `u`; two resource lists that
differ only in the descriptors' `Uri` fields give the same result, world and
invocations for every request; and a registered resource is not found under
its own `Uri` when no registered resource has that `Uri` as its `Name`. -/
theorem read_resource_matches_name_not_uri (logger : L) (ctx : C) (req : Request A) (w : σ)
    (hs : List (ResourceHandler σ C L M R K)) :
    (∀ params : ReadResourceRequestParams, req.UnmarshalReadResourceParams = .ok params →
        ((∃ h ∈ hs, h.Resource.Name = params.Uri) ↔
          resourceCalls logger hs ctx req w ≠ [])) ∧
      (∀ hs2 : List (ResourceHandler σ C L M R K),
        List.Forall₂ (fun a b : ResourceHandler σ C L M R K =>
          a.Resource.Name = b.Resource.Name ∧ a.Resource.Metadata = b.Resource.Metadata ∧
            a.Handle = b.Handle) hs hs2 →
        readResource logger hs2 ctx req w = readResource logger hs ctx req w ∧
          resourceCalls logger hs2 ctx req w = resourceCalls logger hs ctx req w) ∧
      (∀ (params : ReadResourceRequestParams) (b : ResourceHandler σ C L M R K),
        req.UnmarshalReadResourceParams = .ok params → b ∈ hs →
        params.Uri = b.Resource.Uri → (∀ h ∈ hs, h.Resource.Name ≠ b.Resource.Uri) →
        readResource logger hs ctx req w =
            ((none, some (GoError.plain ("resource '" ++ b.Resource.Uri ++
              "' does not exist"))), w) ∧
          resourceCalls logger hs ctx req w = []) := by
  refine ⟨?_, ?_, ?_⟩
  · intro params hdec
    constructor
    · rintro ⟨h, hh, hn⟩
      rcases readResource_of_listed logger hs ctx req params w hdec
        (List.mem_map.2 ⟨h, hh, hn⟩) with ⟨i, b, _, _, _, hc⟩
      rw [hc]
      simp
    · intro hc
      by_contra hex
      apply hc
      exact (readResource_unknown logger hs ctx req params w hdec
        (fun h hh e => hex ⟨h, hh, e⟩)).2
  · intro hs2 hrel
    have hrel2 : List.Forall₂ (fun a b : ResourceHandler σ C L M R K =>
        a.Resource.Name = b.Resource.Name ∧ a.Handle = b.Handle) hs hs2 :=
      List.Forall₂.imp (fun _ _ hab => ⟨hab.1, hab.2.2⟩) hrel
    refine ⟨readResource_related logger hs hs2 ctx req w hrel2, ?_⟩
    unfold resourceCalls
    rw [readResource_related logger _ _ ctx req (w, [])
      (countResourcesFrom_related 0 hs hs2 hrel2)]
  · intro params b hdec _ hu hne
    have hr := readResource_unknown logger hs ctx req params w hdec
      (fun h hh => by rw [hu]; exact hne h hh)
    rw [hu] at hr
    exact hr

/-- Witness of C13: the resource named "readme" with location
"file:///readme" is registered; a read of "file:///readme" is not found and
invokes nothing. -/
theorem read_resource_matches_name_not_uri_witness :
    readResource () [sampleResource "readme" "file:///readme"] ()
        (sampleRequest "resources/read" "file:///readme") 5 =
        ((none, some (GoError.plain ("resource '" ++
          (sampleResource "readme" "file:///readme").Resource.Uri ++ "' does not exist"))),
          5) ∧
      resourceCalls () [sampleResource "readme" "file:///readme"] ()
        (sampleRequest "resources/read" "file:///readme") 5 = [] :=
  (read_resource_matches_name_not_uri () () (sampleRequest "resources/read" "file:///readme")
    5 [sampleResource "readme" "file:///readme"]).2.2 { Uri := "file:///readme" }
    (sampleResource "readme" "file:///readme") rfl (by simp) rfl (by simp [sampleResource])

/-- C14: listing and lookup agree, with or without repeated names.  For each
kind and a request that decodes with identifying field `n`: `n` is the `Name`
of some descriptor returned by the kind's list handler exactly when the
get/read/call handler invokes a handle function; when it is, the invoked
binding holds a listed descriptor of that name; when it is not, the handler
returns the not-found error. -/
theorem listing_and_lookup_agree (logger : L) (ctx : C) (req : Request A) (w : σ) :
    (∀ (hs : List (PromptHandler σ C L A M R K)) (params : GetPromptRequestParams A),
        req.UnmarshalGetPromptParams = .ok params →
        ∃ ds : List (Prompt M),
          listPrompts hs ctx req w =
            ((some (Any.listPromptsResult { Prompts := ds }), none), w) ∧
          ((∃ d ∈ ds, d.Name = params.Name) ↔ promptCalls logger hs ctx req w ≠ []) ∧
          ((∃ d ∈ ds, d.Name = params.Name) →
            ∃ i b, hs[i]? = some b ∧ b.Prompt ∈ ds ∧ b.Prompt.Name = params.Name ∧
              getPrompt logger hs ctx req w = b.Handle ctx logger params w ∧
              promptCalls logger hs ctx req w = [i]) ∧
          ((¬ ∃ d ∈ ds, d.Name = params.Name) →
            getPrompt logger hs ctx req w =
              ((none, some (GoError.plain ("prompt '" ++ params.Name ++ "' does not exist"))),
                w))) ∧
      (∀ (hs : List (ResourceHandler σ C L M R K)) (params : ReadResourceRequestParams),
        req.UnmarshalReadResourceParams = .ok params →
        ∃ ds : List (Resource M),
          listResources hs ctx req w =
            ((some (Any.listResourcesResult { Resources := ds }), none), w) ∧
          ((∃ d ∈ ds, d.Name = params.Uri) ↔ resourceCalls logger hs ctx req w ≠ []) ∧
          ((∃ d ∈ ds, d.Name = params.Uri) →
            ∃ i b, hs[i]? = some b ∧ b.Resource ∈ ds ∧ b.Resource.Name = params.Uri ∧
              readResource logger hs ctx req w = b.Handle ctx logger params w ∧
              resourceCalls logger hs ctx req w = [i]) ∧
          ((¬ ∃ d ∈ ds, d.Name = params.Uri) →
            readResource logger hs ctx req w =
              ((none, some (GoError.plain ("resource '" ++ params.Uri ++
                "' does not exist"))), w))) ∧
      (∀ (hs : List (ToolHandler σ C L A M R K)) (params : CallToolRequestParams A),
        req.UnmarshalCallToolParams = .ok params →
        ∃ ds : List (Tool M),
          listTools hs ctx req w =
            ((some (Any.listToolsResult { Tools := ds }), none), w) ∧
          ((∃ d ∈ ds, d.Name = params.Name) ↔ toolCalls logger hs ctx req w ≠ []) ∧
          ((∃ d ∈ ds, d.Name = params.Name) →
            ∃ i b, hs[i]? = some b ∧ b.Tool ∈ ds ∧ b.Tool.Name = params.Name ∧
              callTool logger hs ctx req w = b.Handle ctx logger params w ∧
              toolCalls logger hs ctx req w = [i]) ∧
          ((¬ ∃ d ∈ ds, d.Name = params.Name) →
            callTool logger hs ctx req w =
              ((none, some (GoError.plain ("tool '" ++ params.Name ++ "' does not exist"))),
                w))) := by
  refine ⟨?_, ?_, ?_⟩
  · intro hs params hdec
    have hiff : (∃ d ∈ hs.map (fun h => h.Prompt), d.Name = params.Name) ↔
        params.Name ∈ hs.map (fun h => h.Prompt.Name) := by
      simp only [List.mem_map]
      constructor
      · rintro ⟨d, ⟨h, hh, rfl⟩, hd⟩
        exact ⟨h, hh, hd⟩
      · rintro ⟨h, hh, hd⟩
        exact ⟨h.Prompt, ⟨h, hh, rfl⟩, hd⟩
    refine ⟨hs.map (fun h => h.Prompt), listPrompts_eq hs ctx req w, ?_, ?_, ?_⟩
    · constructor
      · intro hex
        rcases getPrompt_of_listed logger hs ctx req params w hdec (hiff.1 hex) with
          ⟨i, b, _, _, _, hc⟩
        rw [hc]
        simp
      · intro hc
        by_contra hex
        exact hc (getPrompt_not_listed logger hs ctx req params w hdec
          (fun hm => hex (hiff.2 hm))).2
    · intro hex
      rcases getPrompt_of_listed logger hs ctx req params w hdec (hiff.1 hex) with
        ⟨i, b, hb, hk, hr, hc⟩
      exact ⟨i, b, hb, List.mem_map.2 ⟨b, List.getElem?_mem hb, rfl⟩, hk, hr, hc⟩
    · intro hex
      exact (getPrompt_not_listed logger hs ctx req params w hdec
        (fun hm => hex (hiff.2 hm))).1
  · intro hs params hdec
    have hiff : (∃ d ∈ hs.map (fun h => h.Resource), d.Name = params.Uri) ↔
        params.Uri ∈ hs.map (fun h => h.Resource.Name) := by
      simp only [List.mem_map]
      constructor
      · rintro ⟨d, ⟨h, hh, rfl⟩, hd⟩
        exact ⟨h, hh, hd⟩
      · rintro ⟨h, hh, hd⟩
        exact ⟨h.Resource, ⟨h, hh, rfl⟩, hd⟩
    refine ⟨hs.map (fun h => h.Resource), listResources_eq hs ctx req w, ?_, ?_, ?_⟩
    · constructor
      · intro hex
        rcases readResource_of_listed logger hs ctx req params w hdec (hiff.1 hex) with
          ⟨i, b, _, _, _, hc⟩
        rw [hc]
        simp
      · intro hc
        by_contra hex
        exact hc (readResource_not_listed logger hs ctx req params w hdec
          (fun hm => hex (hiff.2 hm))).2
    · intro hex
      rcases readResource_of_listed logger hs ctx req params w hdec (hiff.1 hex) with
        ⟨i, b, hb, hk, hr, hc⟩
      exact ⟨i, b, hb, List.mem_map.2 ⟨b, List.getElem?_mem hb, rfl⟩, hk, hr, hc⟩
    · intro hex
      exact (readResource_not_listed logger hs ctx req params w hdec
        (fun hm => hex (hiff.2 hm))).1
  · intro hs params hdec
    have hiff : (∃ d ∈ hs.map (fun h => h.Tool), d.Name = params.Name) ↔
        params.Name ∈ hs.map (fun h => h.Tool.Name) := by
      simp only [List.mem_map]
      constructor
      · rintro ⟨d, ⟨h, hh, rfl⟩, hd⟩
        exact ⟨h, hh, hd⟩
      · rintro ⟨h, hh, hd⟩
        exact ⟨h.Tool, ⟨h, hh, rfl⟩, hd⟩
    refine ⟨hs.map (fun h => h.Tool), listTools_eq hs ctx req w, ?_, ?_, ?_⟩
    · constructor
      · intro hex
        rcases callTool_of_listed logger hs ctx req params w hdec (hiff.1 hex) with
          ⟨i, b, _, _, _, hc⟩
        rw [hc]
        simp
      · intro hc
        by_contra hex
        exact hc (callTool_not_listed logger hs ctx req params w hdec
          (fun hm => hex (hiff.2 hm))).2
    · intro hex
      rcases callTool_of_listed logger hs ctx req params w hdec (hiff.1 hex) with
        ⟨i, b, hb, hk, hr, hc⟩
      exact ⟨i, b, hb, List.mem_map.2 ⟨b, List.getElem?_mem hb, rfl⟩, hk, hr, hc⟩
    · intro hex
      exact (callTool_not_listed logger hs ctx req params w hdec
        (fun hm => hex (hiff.2 hm))).1

/-- Witness of C14: "echo" is registered twice with "add" in between and a
call for "echo" arrives; the listed descriptors and the lookup agree. -/
theorem listing_and_lookup_agree_witness :
    ∃ ds : List (Tool Unit),
      listTools [sampleTool "echo", sampleTool "add", failingTool "echo"] ()
          (sampleRequest "tools/call" "echo") 5 =
        ((some (Any.listToolsResult { Tools := ds }), none), 5) ∧
      ((∃ d ∈ ds, d.Name = "echo") ↔
        toolCalls () [sampleTool "echo", sampleTool "add", failingTool "echo"] ()
          (sampleRequest "tools/call" "echo") 5 ≠ []) ∧
      ((∃ d ∈ ds, d.Name = "echo") →
        ∃ i b, [sampleTool "echo", sampleTool "add", failingTool "echo"][i]? = some b ∧
          b.Tool ∈ ds ∧ b.Tool.Name = "echo" ∧
          callTool () [sampleTool "echo", sampleTool "add", failingTool "echo"] ()
            (sampleRequest "tools/call" "echo") 5 =
            b.Handle () () { Name := "echo", Arguments := 0 } 5 ∧
          toolCalls () [sampleTool "echo", sampleTool "add", failingTool "echo"] ()
            (sampleRequest "tools/call" "echo") 5 = [i]) ∧
      ((¬ ∃ d ∈ ds, d.Name = "echo") →
        callTool () [sampleTool "echo", sampleTool "add", failingTool "echo"] ()
            (sampleRequest "tools/call" "echo") 5 =
          ((none, some (GoError.plain ("tool '" ++ "echo" ++ "' does not exist"))), 5)) :=
  (listing_and_lookup_agree () () (sampleRequest "tools/call" "echo") 5).2.2
    [sampleTool "echo", sampleTool "add", failingTool "echo"]
    { Name := "echo", Arguments := 0 } rfl

end Claims

end Converse
